import Mathlib

/-!
# A + B on an OpenCL device: embedding of `src/main.cpp`

`main` is a straight-line driver around the OpenCL C API.  The embedding keeps its
control flow (loops, `break`, `throw`) and replaces the outside world by an explicit
environment `Env`:

* every OpenCL call site is identified by its source line and the indices of the
  enclosing loop iterations; the environment fixes the status code and the duration
  (in clock ticks) of each such call;
* the platforms and devices reported by the driver, the text of `src/cl/aplusb.cl`
  and the build log are data of the environment;
* 32-bit floats are kept abstract (`FloatOps`): only `+` and `!=` are used by `main`.

A run is a function from the world before to an outcome and the world after; the world
carries the trace of OpenCL calls and console lines and a logical clock.

Conventions:

* a `throw std::runtime_error(msg)` is the outcome `Except.error msg`;
* a call site that spans several source lines is identified by its first line, and
  `OCL_SAFE_CALL` reports the line it is written on;
* the platform and device counts are taken to fit the `int` loop counters of lines 50
  and 60, so the loops are recursions over the lists;
* only calls of the OpenCL API take time;
* an event `out` or `stat` of the trace is an insertion into `std::cout`; what reaches
  the console is `printed`: the insertions made while the stream is good, and the stream
  fails for good when line 69 inserts the null pointer of an empty name buffer;
* a buffer filled by the driver holds a NUL-terminated string, the console accepts what
  is written to it, and an allocation within `max_size()` succeeds; the name size a
  device reports fits a `std::vector` (line 67);
* fields and values called ghost are not in the source: they record what the code did.
-/

namespace APlusB

/-! ## Constants of `CL/cl.h` -/

/-- Status code `CL_SUCCESS`. -/
def CL_SUCCESS : Int := 0

/-- Device type bit `CL_DEVICE_TYPE_CPU` (`1 << 1`). -/
def CL_DEVICE_TYPE_CPU : Nat := 2

/-- Device type bit `CL_DEVICE_TYPE_GPU` (`1 << 2`). -/
def CL_DEVICE_TYPE_GPU : Nat := 4

/-! ## `to_string` and `reportError` (lines 14-31) -/

/-- Decimal rendering of an `int` as done by `std::ostringstream << value`. -/
def to_string (value : Int) : String :=
  if value < 0 then "-" ++ Nat.repr value.natAbs else Nat.repr value.natAbs

/-- The message built on line 27. -/
def errorMessage (err : Int) (filename : String) (line : Int) : String :=
  "OpenCL error code " ++ to_string err ++ " encountered at " ++ filename ++ ":" ++ to_string line

/-- Function `reportError` (lines 22-29): `Except.error msg` stands for
`throw std::runtime_error(msg)`. -/
def reportError (err : Int) (filename : String) (line : Int) : Except String Unit :=
  if CL_SUCCESS = err then
    .ok ()
  else
    .error (errorMessage err filename line)

/-! ## The global work size (lines 169-170) -/

/-- Width of `size_t` on the 64-bit targets the claims speak about. -/
def SIZE_BITS : Nat := 64

/-- Addition of two `size_t` values. -/
def sizeAdd (a b : Nat) : Nat := (a + b) % 2 ^ SIZE_BITS

/-- Subtraction of two `size_t` values (wraps below zero). -/
def sizeSub (a b : Nat) : Nat := (a % 2 ^ SIZE_BITS + 2 ^ SIZE_BITS - b % 2 ^ SIZE_BITS) % 2 ^ SIZE_BITS

/-- Multiplication of two `size_t` values. -/
def sizeMul (a b : Nat) : Nat := (a * b) % 2 ^ SIZE_BITS

/-- Division of two `size_t` values. -/
def sizeDiv (a b : Nat) : Nat := a / b

/-- Expression `(n + workGroupSize - 1) / workGroupSize * workGroupSize` of line 170: the
`unsigned int n` is converted to `size_t` and every operation is a `size_t` operation. -/
def global_work_size (n workGroupSize : Nat) : Nat :=
  sizeMul (sizeDiv (sizeSub (sizeAdd n workGroupSize) 1) workGroupSize) workGroupSize

/-- The same expression over the unbounded naturals, used to say that nothing wrapped. -/
def idealWorkSize (n workGroupSize : Nat) : Nat :=
  (n + workGroupSize - 1) / workGroupSize * workGroupSize

/-- Literal `100*1000*1000` of line 99. -/
def n : Nat := 100 * 1000 * 1000

/-! ## Worlds, traces and runs -/

/-- Entry points of the OpenCL API (and of `libclew`) that `main` calls. -/
inductive Api
  | ocl_init
  | clGetPlatformIDs
  | clGetDeviceIDs
  | clGetDeviceInfo
  | clCreateContext
  | clCreateCommandQueue
  | clCreateBuffer
  | clCreateProgramWithSource
  | clBuildProgram
  | clGetProgramBuildInfo
  | clCreateKernel
  | clSetKernelArg
  | clEnqueueNDRangeKernel
  | clWaitForEvents
  | clEnqueueReadBuffer
  | clReleaseMemObject
  | clReleaseCommandQueue
  | clReleaseContext
  deriving DecidableEq, Repr

/-- A device as the driver describes it: `CL_DEVICE_NAME`, the size the driver reports
for that name, and `CL_DEVICE_TYPE`. -/
structure Device where
  name : String
  nameSize : Nat
  deviceType : Nat
  deriving DecidableEq, Repr

/-- Observable steps of a run. -/
inductive Event
  /-- A call of an API entry point, with the size arguments it was given. -/
  | call (api : Api) (sizes : List Nat)
  /-- A call `clGetDeviceInfo(device, ...)`, with the device and the size it was given. -/
  | query (device : Device) (sizes : List Nat)
  /-- A line inserted into `std::cout`. -/
  | out (text : String)
  /-- The insertion of `label` followed by a null `char` pointer into `std::cout`. -/
  | outNull (label : String)
  /-- A line of statistics inserted into `std::cout`; its floating-point numbers are
  computed from the laps of the timer and are not rendered here. -/
  | stat (label : String) (laps : List Nat)
  deriving DecidableEq, Repr

/-- The entry point of an event, when it is an API call. -/
def Event.api? : Event → Option Api
  | .call api _ => some api
  | .query _ _ => some .clGetDeviceInfo
  | _ => none

/-- The API entry points called along a trace, in order. -/
def calls (trace : List Event) : List Api :=
  trace.filterMap Event.api?

/-- The device of an event, when it is a call of `clGetDeviceInfo`. -/
def Event.device? : Event → Option Device
  | .query device _ => some device
  | _ => none

/-- The devices `clGetDeviceInfo` was called on along a trace, in order, one entry per
call. -/
def queried (trace : List Event) : List Device :=
  trace.filterMap Event.device?

/-- The world a run acts on: what has been observed so far, and the wall clock. -/
structure World where
  trace : List Event
  clock : Nat
  deriving DecidableEq, Repr

/-- The world at process start. -/
def World.start : World := ⟨[], 0⟩

/-- Everything `main` receives from outside. -/
structure Env where
  /-- Expansion of `__FILE__`. -/
  file : String
  /-- Result of `ocl_init()`. -/
  ocl_init : Bool
  /-- The platforms in the order of `clGetPlatformIDs`, each with its devices in the
  order of `clGetDeviceIDs`. -/
  platforms : List (List Device)
  /-- Status code of the call on the given source line in the given loop iteration. -/
  status : Nat → List Nat → Int
  /-- Clock ticks that call takes. -/
  latency : Nat → List Nat → Nat
  /-- Contents of `src/cl/aplusb.cl` (empty when the file cannot be opened). -/
  kernel_sources : String
  /-- Size reported for `CL_PROGRAM_BUILD_LOG`. -/
  log_size : Nat
  /-- The build log. -/
  log : String

/-- A run: from the world before to the outcome (a value, or the message of the
`std::runtime_error` thrown) and the world after. -/
def Run (α : Type) : Type := World → Except String α × World

/-- Returning a value. -/
def Run.pure {α : Type} (a : α) : Run α := fun w => (.ok a, w)

/-- Sequencing: an exception skips the rest. -/
def Run.bind {α β : Type} (m : Run α) (f : α → Run β) : Run β := fun w =>
  match m w with
  | (.ok a, w') => f a w'
  | (.error e, w') => (.error e, w')

instance : Monad Run where
  pure := Run.pure
  bind := Run.bind

/-- Statement `throw std::runtime_error(msg)`. -/
def raise {α : Type} (msg : String) : Run α := fun w => (.error msg, w)

/-- Running a pure fallible step. -/
def liftExcept {α : Type} (r : Except String α) : Run α := fun w => (r, w)

/-- Appending an event to the trace. -/
def emit (e : Event) : Run Unit := fun w => (.ok (), ⟨w.trace ++ [e], w.clock⟩)

/-- Statement `std::cout << text << std::endl` for a text that is not a null pointer. -/
def cout (text : String) : Run Unit := emit (.out text)

/-- Statement `std::cout << label << buffer.data() << std::endl` for a `std::vector` of
`size` bytes that holds the C string `text`: the `data()` of an empty vector is a null
pointer. -/
def coutCString (label : String) (size : Nat) (text : String) : Run Unit :=
  if size = 0 then emit (.outNull label) else cout (label ++ text)

/-- A call of `api` at `line` in loop iteration `iter`: it is traced, takes the time the
environment says and returns the status code the environment says. -/
def apiCall (env : Env) (api : Api) (sizes : List Nat) (line : Nat) (iter : List Nat) : Run Int :=
  fun w => (.ok (env.status line iter),
    ⟨w.trace ++ [.call api sizes], w.clock + env.latency line iter⟩)

/-- A call `clGetDeviceInfo(device, ...)` at `line` in loop iteration `iter`. -/
def deviceQuery (env : Env) (device : Device) (sizes : List Nat) (line : Nat)
    (iter : List Nat) : Run Int :=
  fun w => (.ok (env.status line iter),
    ⟨w.trace ++ [.query device sizes], w.clock + env.latency line iter⟩)

/-- Macro `OCL_SAFE_CALL(expr)` (line 31) expanded on `line`. -/
def OCL_SAFE_CALL (env : Env) (line : Nat) (expr : Run Int) : Run Unit := do
  let err ← expr
  liftExcept (reportError err env.file line)

/-- Loop `for (unsigned int i = 0; i < count; ++i)` whose body updates `s`. -/
def forLoop {σ : Type} (body : Nat → σ → Run σ) : Nat → Nat → σ → Run σ
  | 0, _, s => pure s
  | remaining + 1, i, s => do
    let s ← body i s
    forLoop body remaining (i + 1) s

/-! ## The timer of `libutils/timer.h` -/

/-- Modelled from the spec: class `timer` of `libutils/timer.h`, which is not part of the
sources at hand.  It "samples wall-clock durations across repeated trials": it starts
when constructed, and each `nextLap()` records the time elapsed since the start of the
current lap as one more sample and starts the next lap. -/
structure timer where
  lapStart : Nat
  laps : List Nat
  deriving DecidableEq, Repr

/-- Modelled from the spec: construction `timer t;` starts the first lap. -/
def timer.create : Run timer := fun w => (.ok ⟨w.clock, []⟩, w)

/-- Modelled from the spec: call `t.nextLap()` records the duration of the current lap
and starts the next one. -/
def timer.nextLap (t : timer) : Run timer := fun w =>
  (.ok ⟨w.clock, t.laps ++ [w.clock - t.lapStart]⟩, w)

/-! ## Device selection (lines 40-88) -/

/-- Variables `deviceId` and `gpu_use` of `main`; `history` is a ghost field listing the
assignments made to the pair, oldest first. -/
structure SelectionState where
  deviceId : Option Device
  gpu_use : Int
  history : List (Device × Int)
  deriving DecidableEq, Repr

/-- State after lines 40-41: `deviceId` uninitialised, `gpu_use = -1`. -/
def SelectionState.initial : SelectionState := ⟨none, -1, []⟩

/-- Assignments `deviceId = device; gpu_use = flag;`. -/
def SelectionState.assign (s : SelectionState) (device : Device) (flag : Int) : SelectionState :=
  ⟨some device, flag, s.history ++ [(device, flag)]⟩

/-- Test `deviceType == CL_DEVICE_TYPE_GPU` of line 74. -/
def isGPU (device : Device) : Bool :=
  device.deviceType == CL_DEVICE_TYPE_GPU

/-- Inner loop (lines 60-82) from `deviceIndex` on; the list holds `devices[deviceIndex..]`. -/
def deviceLoop (env : Env) (platformIndex devicesCount : Nat) :
    List Device → Nat → SelectionState → Run SelectionState
  | [], _, s => pure s
  | device :: rest, deviceIndex, s => do
    cout ("    Device #" ++ Nat.repr (deviceIndex + 1) ++ "/" ++ Nat.repr devicesCount)
    OCL_SAFE_CALL env 66 (deviceQuery env device [0] 66 [platformIndex, deviceIndex])
    OCL_SAFE_CALL env 68
      (deviceQuery env device [device.nameSize] 68 [platformIndex, deviceIndex])
    coutCString "      Device name: " device.nameSize device.name
    OCL_SAFE_CALL env 72 (deviceQuery env device [8] 72 [platformIndex, deviceIndex])
    if isGPU device then
      pure (s.assign device 1)
    else
      deviceLoop env platformIndex devicesCount rest (deviceIndex + 1) (s.assign device 0)

/-- Outer loop (lines 50-85) from `platformIndex` on; the list holds
`platforms[platformIndex..]`, each platform given by its devices. -/
def platformLoop (env : Env) (platformsCount : Nat) :
    List (List Device) → Nat → SelectionState → Run SelectionState
  | [], _, s => pure s
  | devices :: rest, platformIndex, s => do
    cout ("Platform #" ++ Nat.repr (platformIndex + 1) ++ "/" ++ Nat.repr platformsCount)
    OCL_SAFE_CALL env 55 (apiCall env .clGetDeviceIDs [0] 55 [platformIndex])
    let devicesCount := devices.length
    OCL_SAFE_CALL env 58 (apiCall env .clGetDeviceIDs [devicesCount] 58 [platformIndex])
    let s ← deviceLoop env platformIndex devicesCount devices 0 s
    if s.gpu_use = 1 then
      pure s
    else
      platformLoop env platformsCount rest (platformIndex + 1) s

/-- Lines 40-88: enumerate, run the two loops, and throw when no device was seen. -/
def selectDevice (env : Env) : Run SelectionState := do
  let s := SelectionState.initial
  OCL_SAFE_CALL env 44 (apiCall env .clGetPlatformIDs [0] 44 [])
  let platformsCount := env.platforms.length
  cout ("Number of OpenCL platforms: " ++ Nat.repr platformsCount)
  OCL_SAFE_CALL env 48 (apiCall env .clGetPlatformIDs [platformsCount] 48 [])
  let s ← platformLoop env platformsCount env.platforms 0 s
  if s.gpu_use = -1 then
    raise "devices not found!"
  pure s

/-! ## The rest of `main` -/

/-- The two operations `main` applies to `float` values. -/
class FloatOps (F : Type) where
  /-- Value `0` the vectors are filled with on lines 101-103. -/
  zero : F
  /-- Operator `+` on `float`. -/
  add : F → F → F
  /-- Operator `!=` on `float`. -/
  ne : F → F → Bool

/-- The floating-point data `main` receives from outside. -/
structure HostData (F : Type) where
  /-- Value returned by the `k`-th call of `r.nextf()`, counting from zero. -/
  nextf : Nat → F
  /-- Element `j` stored into `cs` by the read of trial `i` (line 191). -/
  readback : Nat → Nat → F

/-- Size of a `float`. -/
def sizeofFloat : Nat := 4

/-- Lines 91-96: context and command queue for the selected device. -/
def createContext (env : Env) : Run Unit := do
  let errcode_ret ← apiCall env .clCreateContext [1] 92 []
  OCL_SAFE_CALL env 93 (pure errcode_ret)
  let errcode_ret ← apiCall env .clCreateCommandQueue [] 95 []
  OCL_SAFE_CALL env 96 (pure errcode_ret)

/-- Vector `as` after the loop of lines 105-108. -/
def generateAs {F : Type} (data : HostData F) (n : Nat) : Array F :=
  Array.ofFn (fun i : Fin n => data.nextf (2 * i.val))

/-- Vector `bs` after the loop of lines 105-108. -/
def generateBs {F : Type} (data : HostData F) (n : Nat) : Array F :=
  Array.ofFn (fun i : Fin n => data.nextf (2 * i.val + 1))

/-- Lines 111-121: the three device buffers. -/
def createBuffers (env : Env) (n : Nat) : Run Unit := do
  let errcode_ret ← apiCall env .clCreateBuffer [sizeMul n sizeofFloat] 111 []
  OCL_SAFE_CALL env 113 (pure errcode_ret)
  let errcode_ret ← apiCall env .clCreateBuffer [sizeMul n sizeofFloat] 115 []
  OCL_SAFE_CALL env 117 (pure errcode_ret)
  let errcode_ret ← apiCall env .clCreateBuffer [sizeMul n sizeofFloat] 119 []
  OCL_SAFE_CALL env 121 (pure errcode_ret)

/-- Lines 124-132: read the kernel source and refuse an empty one.  The text is taken
as a string of one-byte characters, so `size()` is its length. -/
def loadKernelSource (env : Env) : Run String := do
  let kernel_sources := env.kernel_sources
  if kernel_sources.length = 0 then
    raise "Empty source file! May be you forgot to configure working directory properly?"
  pure kernel_sources

/-- Value of `std::vector<char>::max_size()` on the 64-bit targets: `PTRDIFF_MAX`. -/
def VECTOR_MAX_SIZE : Nat := 2 ^ 63 - 1

/-- Message of the `std::length_error` a `std::vector` constructor throws for a size
beyond `max_size()` (wording of libstdc++). -/
def lengthErrorMessage : String := "cannot create std::vector larger than max_size()"

/-- Lines 135-155: create and build the program, fetch the build log and print it when
it is longer than one character.  The construction of `log` on line 148 throws for a
size beyond `max_size()`. -/
def buildProgram (env : Env) (kernel_sources : String) : Run Unit := do
  let kernel_size := kernel_sources.length
  let errcode_ret ← apiCall env .clCreateProgramWithSource [1, kernel_size] 137 []
  OCL_SAFE_CALL env 138 (pure errcode_ret)
  let errcode_ret ← apiCall env .clBuildProgram [1] 141 []
  OCL_SAFE_CALL env 142 (pure errcode_ret)
  OCL_SAFE_CALL env 147 (apiCall env .clGetProgramBuildInfo [0] 147 [])
  let log_size := env.log_size
  if log_size > VECTOR_MAX_SIZE then
    raise lengthErrorMessage
  OCL_SAFE_CALL env 149 (apiCall env .clGetProgramBuildInfo [log_size] 149 [])
  if log_size > 1 then
    cout "Log:"
    cout env.log

/-- Lines 157-166: create the kernel and set its four arguments; the status codes of
`clSetKernelArg` are dropped. -/
def createKernel (env : Env) : Run Unit := do
  let errcode_ret ← apiCall env .clCreateKernel [] 157 []
  OCL_SAFE_CALL env 158 (pure errcode_ret)
  let _ ← apiCall env .clSetKernelArg [0, 8] 162 []
  let _ ← apiCall env .clSetKernelArg [1, 8] 163 []
  let _ ← apiCall env .clSetKernelArg [2, 8] 164 []
  let _ ← apiCall env .clSetKernelArg [3, 4] 165 []

/-- Body of the loop of lines 173-178. -/
def kernelTrial (env : Env) (global_work_size workGroupSize : Nat) (i : Nat) (t : timer) :
    Run timer := do
  OCL_SAFE_CALL env 175
    (apiCall env .clEnqueueNDRangeKernel [global_work_size, workGroupSize] 175 [i])
  OCL_SAFE_CALL env 177 (apiCall env .clWaitForEvents [1] 177 [i])
  pure t

/-- Lines 168-184: the kernel timing block.  The timer is returned for inspection. -/
def kernelTiming (env : Env) (n : Nat) : Run timer := do
  let workGroupSize := 128
  let global_work_size := global_work_size n workGroupSize
  let t ← timer.create
  let t ← forLoop (kernelTrial env global_work_size workGroupSize) 20 0 t
  let t ← t.nextLap
  emit (.stat "Kernel average time: " t.laps)
  emit (.stat "GFlops: " t.laps)
  emit (.stat "VRAM bandwidth: " t.laps)
  pure t

/-- Body of the loop of lines 188-197; the state is the timer and the vector `cs`. -/
def transferTrial {F : Type} (env : Env) (data : HostData F) (n : Nat) (i : Nat)
    (s : timer × Array F) : Run (timer × Array F) := do
  OCL_SAFE_CALL env 191 (apiCall env .clEnqueueReadBuffer [sizeMul sizeofFloat n] 191 [i])
  let cs := Array.ofFn (fun j : Fin n => data.readback i j.val)
  OCL_SAFE_CALL env 194 (apiCall env .clWaitForEvents [1] 194 [i])
  let t ← s.1.nextLap
  pure (t, cs)

/-- Lines 186-200: the transfer timing block. -/
def transferTiming {F : Type} (env : Env) (data : HostData F) (n : Nat) (cs : Array F) :
    Run (timer × Array F) := do
  let t ← timer.create
  let (t, cs) ← forLoop (transferTrial env data n) 20 0 (t, cs)
  emit (.stat "Result data transfer time: " t.laps)
  emit (.stat "VRAM -> RAM bandwidth: " t.laps)
  pure (t, cs)

/-- Test `cs[i] != as[i] + bs[i]` of line 203. -/
def differs {F : Type} [FloatOps F] (as bs cs : Array F) (i : Nat) : Bool :=
  FloatOps.ne (cs.getD i FloatOps.zero)
    (FloatOps.add (as.getD i FloatOps.zero) (bs.getD i FloatOps.zero))

/-- Loop of lines 202-206 from index `i` on.  The second component is a ghost value: the
indices whose elements the loop has compared, in order. -/
def validationLoop {F : Type} [FloatOps F] (as bs cs : Array F) (n : Nat) (i : Nat)
    (examined : List Nat) : Except String Unit × List Nat :=
  if i < n then
    if differs as bs cs i then
      (.error "CPU and GPU results differ!", examined ++ [i])
    else
      validationLoop as bs cs n (i + 1) (examined ++ [i])
  else
    (.ok (), examined)
termination_by n - i

/-- Lines 202-206. -/
def validate {F : Type} [FloatOps F] (as bs cs : Array F) (n : Nat) : Except String Unit × List Nat :=
  validationLoop as bs cs n 0 []

/-- Lines 208-213: release buffers, queue and context. -/
def release (env : Env) : Run Unit := do
  OCL_SAFE_CALL env 208 (apiCall env .clReleaseMemObject [] 208 [])
  OCL_SAFE_CALL env 209 (apiCall env .clReleaseMemObject [] 209 [])
  OCL_SAFE_CALL env 210 (apiCall env .clReleaseMemObject [] 210 [])
  OCL_SAFE_CALL env 212 (apiCall env .clReleaseCommandQueue [] 212 [])
  OCL_SAFE_CALL env 213 (apiCall env .clReleaseContext [] 213 [])

/-- Lines 36-121: driver start-up, device selection, context and queue, the host
vectors and the device buffers.  Returns the vectors `as`, `bs` and `cs`. -/
def prepare {F : Type} [FloatOps F] (n : Nat) (env : Env) (data : HostData F) :
    Run (Array F × Array F × Array F) := do
  emit (.call .ocl_init [])
  if !env.ocl_init then
    raise "Can't init OpenCL driver!"
  let _ ← selectDevice env
  createContext env
  let as := generateAs data n
  let bs := generateBs data n
  let cs : Array F := Array.mkArray n FloatOps.zero
  cout ("Data generated for n=" ++ Nat.repr n ++ "!")
  createBuffers env n
  pure (as, bs, cs)

/-- Lines 186-216: the transfer timing block, the comparison with the CPU result and
the release of the resources. -/
def finish {F : Type} [FloatOps F] (n : Nat) (env : Env) (data : HostData F)
    (as bs cs : Array F) : Run Int := do
  let (_, cs) ← transferTiming env data n cs
  liftExcept (validate as bs cs n).1
  release env
  pure 0

/-- Lines 157-216: everything after the build. -/
def execute {F : Type} [FloatOps F] (n : Nat) (env : Env) (data : HostData F)
    (as bs cs : Array F) : Run Int := do
  createKernel env
  let _ ← kernelTiming env n
  finish n env data as bs cs

/-- Function `main` for an element count `n` (line 99 fixes it to `APlusB.n`). -/
def mainFor {F : Type} [FloatOps F] (n : Nat) (env : Env) (data : HostData F) : Run Int := do
  let (as, bs, cs) ← prepare n env data
  let kernel_sources ← loadKernelSource env
  buildProgram env kernel_sources
  execute n env data as bs cs

/-- Function `main` (lines 34-217). -/
def main {F : Type} [FloatOps F] (env : Env) (data : HostData F) : Run Int :=
  mainFor n env data

/-! ## Vocabulary of the statements -/

/-- Assignments made by the two loops over the devices, given in the order they are
enumerated, when no call fails: one per device up to and including the first one that
passes the test of line 74. -/
def scan : List Device → List (Device × Int)
  | [] => []
  | d :: rest => if isGPU d then [(d, 1)] else (d, 0) :: scan rest

/-- The selection state after a list of assignments. -/
def SelectionState.extend (s : SelectionState) (h : List (Device × Int)) : SelectionState :=
  h.foldl (fun s p => s.assign p.1 p.2) s

/-- Each device three times: the queries of lines 66, 68 and 72 for the devices of a
list. -/
def thrice (devices : List Device) : List Device :=
  devices.flatMap (fun d => [d, d, d])

/-- Number of platforms the outer loop enters when no call fails: those up to and
including the first one that holds a GPU-class device. -/
def platformsEntered : List (List Device) → Nat
  | [] => 0
  | devices :: rest => if devices.any isGPU then 1 else 1 + platformsEntered rest

/-- Every call made on a source line before `bound` returns `CL_SUCCESS`. -/
def SucceedBefore (env : Env) (bound : Nat) : Prop :=
  ∀ line iter, line < bound → env.status line iter = CL_SUCCESS

/-- The message `msg` is the report of a call made on a source line before `bound` that
did not succeed. -/
def ApiFailure (env : Env) (bound : Nat) (msg : String) : Prop :=
  ∃ (l line : Nat) (iter : List Nat), line < bound ∧
    env.status line iter ≠ CL_SUCCESS ∧ msg = errorMessage (env.status line iter) env.file l

/-- Outcome `r` of a selection loop started in the world `w`: either it returns the state
`expected`, having queried exactly the devices `visited`, three times each, and having
entered `entered` platforms (two `clGetDeviceIDs` calls each); or it throws the report
of a failed call, having queried an initial part of that. -/
def LoopOutcome (env : Env) (w : World) (expected : SelectionState) (visited : List Device)
    (entered : Nat) (r : Except String SelectionState × World) : Prop :=
  ∃ L, queried r.2.trace = queried w.trace ++ L ∧
    ((r.1 = .ok expected ∧ L = thrice visited ∧
        (calls r.2.trace).count .clGetDeviceIDs
          = (calls w.trace).count .clGetDeviceIDs + 2 * entered) ∨
      (∃ msg, ApiFailure env 89 msg ∧ r.1 = .error msg ∧ ∃ rest, L ++ rest = thrice visited))

/-- A run that appends only events satisfying `P` to the trace, returns only values
satisfying `ok` and throws only messages satisfying `err`. -/
def Obeys {α : Type} (m : Run α) (P : Event → Prop) (ok : α → Prop) (err : String → Prop) :
    Prop :=
  ∀ w, (∃ es, (m w).2.trace = w.trace ++ es ∧ ∀ e ∈ es, P e) ∧
    (∀ a, (m w).1 = .ok a → ok a) ∧ (∀ msg, (m w).1 = .error msg → err msg)

/-- Events of lines 36-121 when the driver reports the devices `devices`; a null pointer
is inserted only for a device whose reported name size is 0. -/
inductive PrepareEvent (devices : List Device) : Event → Prop
  | init : PrepareEvent devices (.call .ocl_init [])
  | platformIDs (sizes : List Nat) : PrepareEvent devices (.call .clGetPlatformIDs sizes)
  | deviceIDs (sizes : List Nat) : PrepareEvent devices (.call .clGetDeviceIDs sizes)
  | deviceInfo (d : Device) (sizes : List Nat) : d ∈ devices →
      PrepareEvent devices (.query d sizes)
  | context (sizes : List Nat) : PrepareEvent devices (.call .clCreateContext sizes)
  | queue (sizes : List Nat) : PrepareEvent devices (.call .clCreateCommandQueue sizes)
  | buffer (sizes : List Nat) : PrepareEvent devices (.call .clCreateBuffer sizes)
  | platformCount (t : String) :
      PrepareEvent devices (.out ("Number of OpenCL platforms: " ++ t))
  | platform (t u : String) : PrepareEvent devices (.out ("Platform #" ++ t ++ "/" ++ u))
  | device (t u : String) : PrepareEvent devices (.out ("    Device #" ++ t ++ "/" ++ u))
  | deviceName (t : String) : PrepareEvent devices (.out ("      Device name: " ++ t))
  | nullName (d : Device) (label : String) : d ∈ devices → d.nameSize = 0 →
      PrepareEvent devices (.outNull label)
  | generated (t : String) : PrepareEvent devices (.out ("Data generated for n=" ++ t ++ "!"))

/-- The conditions under which lines 151-155 are reached with a log longer than one
character: the program was created and built, both log queries succeeded and the log
fits a `std::vector`. -/
def LogShown (env : Env) : Prop :=
  1 < env.log_size ∧ env.log_size ≤ VECTOR_MAX_SIZE ∧ env.status 137 [] = CL_SUCCESS ∧
    env.status 141 [] = CL_SUCCESS ∧ env.status 147 [] = CL_SUCCESS ∧
    env.status 149 [] = CL_SUCCESS

/-- Events of lines 135-155, each with what must have succeeded before it. -/
inductive BuildEvent (env : Env) : Event → Prop
  | program (sizes : List Nat) : BuildEvent env (.call .clCreateProgramWithSource sizes)
  | build (sizes : List Nat) : env.status 137 [] = CL_SUCCESS →
      BuildEvent env (.call .clBuildProgram sizes)
  | info (sizes : List Nat) : env.status 137 [] = CL_SUCCESS →
      env.status 141 [] = CL_SUCCESS → BuildEvent env (.call .clGetProgramBuildInfo sizes)
  | header : LogShown env → BuildEvent env (.out "Log:")
  | text : LogShown env → BuildEvent env (.out env.log)

/-- Labels of the statistics lines of the kernel timing block. -/
def kernelLabels : List String :=
  ["Kernel average time: ", "GFlops: ", "VRAM bandwidth: "]

/-- Labels of the statistics lines of the transfer timing block. -/
def transferLabels : List String :=
  ["Result data transfer time: ", "VRAM -> RAM bandwidth: "]

/-- Events of lines 157-216; a statistics line comes with the number of laps the timer of
its block holds. -/
inductive ExecuteEvent : Event → Prop
  | kernel (sizes : List Nat) : ExecuteEvent (.call .clCreateKernel sizes)
  | arg (sizes : List Nat) : ExecuteEvent (.call .clSetKernelArg sizes)
  | enqueue (sizes : List Nat) : ExecuteEvent (.call .clEnqueueNDRangeKernel sizes)
  | wait (sizes : List Nat) : ExecuteEvent (.call .clWaitForEvents sizes)
  | read (sizes : List Nat) : ExecuteEvent (.call .clEnqueueReadBuffer sizes)
  | releaseMem (sizes : List Nat) : ExecuteEvent (.call .clReleaseMemObject sizes)
  | releaseQueue (sizes : List Nat) : ExecuteEvent (.call .clReleaseCommandQueue sizes)
  | releaseContext (sizes : List Nat) : ExecuteEvent (.call .clReleaseContext sizes)
  | kernelStat (label : String) (laps : List Nat) : label ∈ kernelLabels → laps.length = 1 →
      ExecuteEvent (.stat label laps)
  | transferStat (label : String) (laps : List Nat) : label ∈ transferLabels →
      laps.length = 20 → ExecuteEvent (.stat label laps)

/-! ## Concrete inputs -/

/-- A CPU-class device. -/
def CPU0 : Device := ⟨"CPU0", 5, CL_DEVICE_TYPE_CPU⟩

/-- A GPU-class device. -/
def GPU0 : Device := ⟨"GPU0", 5, CL_DEVICE_TYPE_GPU⟩

/-- A second CPU-class device. -/
def CPU1 : Device := ⟨"CPU1", 5, CL_DEVICE_TYPE_CPU⟩

/-- An environment in which the driver starts, every call succeeds and takes one tick,
the kernel source is present and the build log is empty. -/
def quietEnv (platforms : List (List Device)) : Env :=
  ⟨"src/main.cpp", true, platforms, fun _ _ => CL_SUCCESS, fun _ _ => 1, "kernel", 0, ""⟩

/-- Integers standing in for `float`, with exact addition. -/
instance : FloatOps Int := ⟨0, fun a b => a + b, fun a b => a != b⟩

/-- Host data in which the device returns the sums of the inputs. -/
def exactData : HostData Int := ⟨fun k => k, fun _ j => 4 * j + 1⟩

/-- The environment `quietEnv` with one GPU and an empty kernel source file. -/
def noSourceEnv : Env :=
  ⟨"src/main.cpp", true, [[GPU0]], fun _ _ => CL_SUCCESS, fun _ _ => 1, "", 0, ""⟩

@[simp] theorem run_pure {α : Type} (a : α) (w : World) :
    (pure a : Run α) w = (.ok a, w) := rfl

theorem run_bind {α β : Type} (m : Run α) (f : α → Run β) (w : World) :
    (m >>= f) w = match m w with
      | (.ok a, w') => f a w'
      | (.error e, w') => (.error e, w') := rfl

theorem run_bind_ok {α β : Type} {m : Run α} {f : α → Run β} {w w1 : World} {a : α}
    (h : m w = (.ok a, w1)) : (m >>= f) w = f a w1 := by
  rw [run_bind, h]

theorem run_bind_error {α β : Type} {m : Run α} {f : α → Run β} {w w1 : World} {e : String}
    (h : m w = (.error e, w1)) : (m >>= f) w = (.error e, w1) := by
  rw [run_bind, h]

theorem reportError_success (filename : String) (line : Int) :
    reportError CL_SUCCESS filename line = .ok () := by
  simp [reportError]

theorem reportError_failure {err : Int} (h : err ≠ CL_SUCCESS) (filename : String) (line : Int) :
    reportError err filename line = .error (errorMessage err filename line) := by
  simp [reportError, Ne.symm h]

theorem obeys_mono
    {α : Type} {P : Event → Prop} {err : String → Prop} {m : Run α} {ok ok' : α → Prop} {P' : Event → Prop} {err' : String → Prop}
    (h : Obeys m P ok err) (hP : ∀ e, P e → P' e) (hok : ∀ a, ok a → ok' a)
    (herr : ∀ msg, err msg → err' msg) : Obeys m P' ok' err' := by
  intro w
  obtain ⟨⟨es, h1, h2⟩, h3, h4⟩ := h w
  exact ⟨⟨es, h1, fun e he => hP e (h2 e he)⟩, fun a ha => hok a (h3 a ha),
    fun msg hm => herr msg (h4 msg hm)⟩

theorem obeys_pure
    {α : Type} {P : Event → Prop} {err : String → Prop} {ok : α → Prop} {a : α} (h : ok a) : Obeys (pure a : Run α) P ok err := by
  intro w
  refine ⟨⟨[], by simp, by simp⟩, ?_, ?_⟩
  · intro b hb
    simp only [run_pure, Except.ok.injEq] at hb
    exact hb ▸ h
  · intro msg hm
    simp at hm

theorem obeys_bind
    {α β : Type} {P : Event → Prop} {err : String → Prop} {m : Run α} {f : α → Run β} {ok₁ : α → Prop} {ok : β → Prop}
    (h : Obeys m P ok₁ err) (hf : ∀ a, ok₁ a → Obeys (f a) P ok err) :
    Obeys (m >>= f) P ok err := by
  intro w
  obtain ⟨⟨es, h1, h2⟩, h3, h4⟩ := h w
  rw [run_bind]
  rcases hm : m w with ⟨r, w1⟩
  rw [hm] at h1 h3 h4
  cases r with
  | error e =>
    refine ⟨⟨es, h1, h2⟩, ?_, ?_⟩
    · intro b hb; simp at hb
    · intro msg hmsg
      simp only [Except.error.injEq] at hmsg
      exact h4 msg (by simp [hmsg])
  | ok a =>
    obtain ⟨⟨es', h1', h2'⟩, h3', h4'⟩ := hf a (h3 a rfl) w1
    refine ⟨⟨es ++ es', ?_, ?_⟩, h3', h4'⟩
    · simp only [] at h1
      show ((f a) w1).2.trace = _
      rw [h1', h1, List.append_assoc]
    · intro e he
      rcases List.mem_append.mp he with he | he
      · exact h2 e he
      · exact h2' e he

theorem obeys_raise
    {α : Type} {P : Event → Prop} {err : String → Prop} {ok : α → Prop} {msg : String} (h : err msg) :
    Obeys (raise msg : Run α) P ok err := by
  intro w
  refine ⟨⟨[], by simp [raise], by simp⟩, ?_, ?_⟩
  · intro b hb; simp [raise] at hb
  · intro m hm
    simp only [raise, Except.error.injEq] at hm
    exact hm ▸ h

theorem obeys_liftExcept
    {α : Type} {P : Event → Prop} {err : String → Prop} {ok : α → Prop} {r : Except String α} (hok : ∀ a, r = .ok a → ok a)
    (herr : ∀ msg, r = .error msg → err msg) : Obeys (liftExcept r) P ok err := by
  intro w
  exact ⟨⟨[], by simp [liftExcept], by simp⟩, hok, herr⟩

theorem obeys_emit
    {P : Event → Prop} {err : String → Prop} {e : Event} (hP : P e) :
    Obeys (emit e) P (fun _ => True) err := by
  intro w
  refine ⟨⟨[e], rfl, by simpa using hP⟩, fun _ _ => trivial, ?_⟩
  intro msg hm; simp [emit] at hm

theorem obeys_apiCall
    {P : Event → Prop} {err : String → Prop} {env : Env} {api : Api} {sizes : List Nat} {line : Nat} {iter : List Nat}
    {ok : Int → Prop} (hP : P (.call api sizes)) (hok : ok (env.status line iter)) :
    Obeys (apiCall env api sizes line iter) P ok err := by
  intro w
  refine ⟨⟨[.call api sizes], rfl, by simpa using hP⟩, ?_, ?_⟩
  · intro a ha
    simp only [apiCall, Except.ok.injEq] at ha
    exact ha ▸ hok
  · intro msg hm; simp [apiCall] at hm

theorem obeys_checked
    {P : Event → Prop} {err : String → Prop} {env : Env} {l : Nat} {expr : Run Int} {ok : Unit → Prop}
    (h : Obeys expr P
      (fun code => (code = CL_SUCCESS → ok ()) ∧
        (code ≠ CL_SUCCESS → err (errorMessage code env.file l))) err) :
    Obeys (OCL_SAFE_CALL env l expr) P ok err := by
  unfold OCL_SAFE_CALL
  refine obeys_bind h ?_
  intro code hcode
  refine obeys_liftExcept ?_ ?_
  · intro a ha
    by_cases hc : code = CL_SUCCESS
    · exact hcode.1 hc
    · rw [reportError_failure hc] at ha; simp at ha
  · intro msg hm
    by_cases hc : code = CL_SUCCESS
    · rw [hc, reportError_success] at hm; simp at hm
    · rw [reportError_failure hc] at hm
      simp only [Except.error.injEq] at hm
      exact hm ▸ hcode.2 hc

/-- A checked call made on source line `line` before `bound`. -/
theorem obeys_checkedCall
    {P : Event → Prop} {err : String → Prop} {env : Env} {l line bound : Nat} {api : Api}
    {sizes : List Nat} {iter : List Nat} (hP : P (.call api sizes)) (hl : line < bound)
    (herr : ∀ msg, ApiFailure env bound msg → err msg) :
    Obeys (OCL_SAFE_CALL env l (apiCall env api sizes line iter)) P
      (fun _ => env.status line iter = CL_SUCCESS) err :=
  obeys_checked (obeys_apiCall hP ⟨fun h => h, fun h => herr _ ⟨l, line, iter, hl, h, rfl⟩⟩)

/-- A checked status code that a call on source line `line` before `bound` returned. -/
theorem obeys_checkedCode
    {P : Event → Prop} {err : String → Prop} {env : Env} {l line bound : Nat}
    {iter : List Nat} (hl : line < bound) (herr : ∀ msg, ApiFailure env bound msg → err msg) :
    Obeys (OCL_SAFE_CALL env l (pure (env.status line iter))) P
      (fun _ => env.status line iter = CL_SUCCESS) err :=
  obeys_checked (obeys_pure ⟨fun h => h, fun h => herr _ ⟨l, line, iter, hl, h, rfl⟩⟩)

/-- A call whose status code is kept in `errcode_ret` and checked on the next line. -/
theorem obeys_callThenCheck
    {β : Type} {P : Event → Prop} {err : String → Prop} {env : Env} {l line bound : Nat}
    {api : Api} {sizes : List Nat} {iter : List Nat} {f : Unit → Run β} {ok : β → Prop}
    (hP : P (.call api sizes)) (hl : line < bound)
    (herr : ∀ msg, ApiFailure env bound msg → err msg)
    (hf : env.status line iter = CL_SUCCESS → Obeys (f ()) P ok err) :
    Obeys (apiCall env api sizes line iter >>= fun errcode_ret =>
      OCL_SAFE_CALL env l (pure errcode_ret) >>= f) P ok err := by
  refine obeys_bind (obeys_apiCall hP rfl) ?_
  intro code hcode
  subst hcode
  exact obeys_bind (obeys_checkedCode hl herr) (fun _ h => hf h)

/-- A checked call of `clGetDeviceInfo` made on source line `line` before `bound`. -/
theorem obeys_checkedQuery
    {P : Event → Prop} {err : String → Prop} {env : Env} {l line bound : Nat} {d : Device}
    {sizes : List Nat} {iter : List Nat} (hP : P (.query d sizes)) (hl : line < bound)
    (herr : ∀ msg, ApiFailure env bound msg → err msg) :
    Obeys (OCL_SAFE_CALL env l (deviceQuery env d sizes line iter)) P
      (fun _ => env.status line iter = CL_SUCCESS) err := by
  refine obeys_checked ?_
  intro w
  refine ⟨⟨[.query d sizes], rfl, by simpa using hP⟩, ?_, ?_⟩
  · intro a ha
    simp only [deviceQuery, Except.ok.injEq] at ha
    exact ha ▸ ⟨fun h => h, fun h => herr _ ⟨l, line, iter, hl, h, rfl⟩⟩
  · intro msg hm; simp [deviceQuery] at hm

theorem obeys_coutCString
    {P : Event → Prop} {err : String → Prop} {label : String} {size : Nat} {text : String}
    (hP : size ≠ 0 → P (.out (label ++ text))) (hnull : size = 0 → P (.outNull label)) :
    Obeys (coutCString label size text) P (fun _ => True) err := by
  unfold coutCString
  by_cases h : size = 0
  · rw [if_pos h]; exact obeys_emit (hnull h)
  · rw [if_neg h]; exact obeys_emit (hP h)

theorem obeys_forLoop
    {P : Event → Prop} {err : String → Prop} {σ : Type} {body : Nat → σ → Run σ}
    {inv : Nat → σ → Prop} (h : ∀ i s, inv i s → Obeys (body i s) P (inv (i + 1)) err) :
    ∀ (remaining i : Nat) (s : σ), inv i s →
      Obeys (forLoop body remaining i s) P (inv (i + remaining)) err := by
  intro remaining
  induction remaining with
  | zero => intro i s hs; exact obeys_pure hs
  | succ k ih =>
    intro i s hs
    have h2 : i + (k + 1) = i + 1 + k := by omega
    rw [h2]
    exact obeys_bind (h i s hs) (fun s' hs' => ih (i + 1) s' hs')

theorem obeys_create {P : Event → Prop} {err : String → Prop} :
    Obeys timer.create P (fun t => t.laps = []) err := by
  intro w
  refine ⟨⟨[], by simp [timer.create], by simp⟩, ?_, ?_⟩
  · intro t ht
    simp only [timer.create, Except.ok.injEq] at ht
    rw [← ht]
  · intro msg hm; simp [timer.create] at hm

theorem obeys_nextLap {P : Event → Prop} {err : String → Prop} (t : timer) :
    Obeys t.nextLap P (fun t' => t'.laps.length = t.laps.length + 1) err := by
  intro w
  refine ⟨⟨[], by simp [timer.nextLap], by simp⟩, ?_, ?_⟩
  · intro t' ht
    simp only [timer.nextLap, Except.ok.injEq] at ht
    rw [← ht]; simp
  · intro msg hm; simp [timer.nextLap] at hm

/-- What a run that obeys and cannot throw does to a world. -/
theorem obeys_returns
    {α : Type} {P : Event → Prop} {err : String → Prop} {m : Run α} {ok : α → Prop} (h : Obeys m P ok err)
    (hne : ∀ msg, ¬ err msg) (w : World) :
    ∃ a w1 es, m w = (.ok a, w1) ∧ ok a ∧ w1.trace = w.trace ++ es ∧ ∀ e ∈ es, P e := by
  obtain ⟨⟨es, h1, h2⟩, h3, h4⟩ := h w
  rcases hm : m w with ⟨r, w1⟩
  rw [hm] at h1 h3 h4
  cases r with
  | error e => exact absurd (h4 e rfl) (hne e)
  | ok a => exact ⟨a, w1, es, rfl, h3 a rfl, h1, h2⟩

/-! ## What the selection loops compute -/

theorem extend_nil (s : SelectionState) : s.extend [] = s := rfl

theorem extend_cons (s : SelectionState) (p : Device × Int) (h : List (Device × Int)) :
    s.extend (p :: h) = (s.assign p.1 p.2).extend h := rfl

theorem extend_append (s : SelectionState) (h₁ h₂ : List (Device × Int)) :
    s.extend (h₁ ++ h₂) = (s.extend h₁).extend h₂ := by
  simp [SelectionState.extend, List.foldl_append]


theorem scan_append (a b : List Device) :
    scan (a ++ b) = if a.any isGPU then scan a else scan a ++ scan b := by
  induction a with
  | nil => simp [scan]
  | cons d rest ih =>
    cases hg : isGPU d with
    | true => simp [scan, hg]
    | false =>
      cases hr : rest.any isGPU with
      | true => simp [scan, hg, hr, ih]
      | false => simp [scan, hg, hr, ih]

theorem scan_map_fst (l : List Device) :
    (scan l).map Prod.fst
      = l.takeWhile (fun d => !isGPU d) ++ (l.find? isGPU).toList := by
  induction l with
  | nil => simp [scan]
  | cons d rest ih =>
    cases hg : isGPU d with
    | true => simp [scan, hg, List.takeWhile_cons]
    | false => simp [scan, hg, List.takeWhile_cons, ih]

theorem scan_flag_mem {l : List Device} {p : Device × Int} (h : p ∈ scan l) :
    p.1 ∈ l ∧ (p.2 = if isGPU p.1 then 1 else 0) := by
  induction l with
  | nil => simp [scan] at h
  | cons d rest ih =>
    cases hg : isGPU d with
    | true =>
      simp only [scan, hg, if_true, List.mem_singleton] at h
      subst h; simp [hg]
    | false =>
      simp only [scan, hg, Bool.false_eq_true, if_false, List.mem_cons] at h
      rcases h with h | h
      · subst h; simp [hg]
      · have := ih h
        exact ⟨List.mem_cons_of_mem _ this.1, this.2⟩

theorem scan_stops_at_gpu {l : List Device} {pre post : List (Device × Int)} {p : Device × Int}
    (h : scan l = pre ++ p :: post) (hp : p.2 = 1) : post = [] := by
  induction l generalizing pre with
  | nil => simp [scan] at h
  | cons d rest ih =>
    cases hg : isGPU d with
    | true =>
      simp only [scan, hg, if_true] at h
      cases pre with
      | nil =>
        simp only [List.nil_append, List.cons.injEq] at h
        exact h.2.symm
      | cons q pre' => simp at h
    | false =>
      simp only [scan, hg] at h
      cases pre with
      | nil =>
        simp only [Bool.false_eq_true, if_false, List.nil_append, List.cons.injEq] at h
        rw [← h.1] at hp
        simp at hp
      | cons q pre' =>
        simp only [Bool.false_eq_true, if_false, List.cons_append, List.cons.injEq] at h
        exact ih h.2

/-- The device the loops end on: the first GPU-class device when there is one, and the
last device otherwise. -/
theorem extend_scan (s : SelectionState) (l : List Device) :
    s.extend (scan l) =
      if l = [] then s
      else ⟨match l.find? isGPU with
              | some g => some g
              | none => l.getLast?,
            if l.any isGPU then 1 else 0,
            s.history ++ scan l⟩ := by
  induction l generalizing s with
  | nil => simp [scan, extend_nil]
  | cons d rest ih =>
    cases hg : isGPU d with
    | true =>
      simp [scan, hg, extend_cons, extend_nil, SelectionState.assign, List.find?_cons]
    | false =>
      simp only [scan, hg, Bool.false_eq_true, if_false, extend_cons, ih]
      cases rest with
      | nil => simp [SelectionState.assign, scan, List.find?_cons, hg]
      | cons e rest' =>
        simp [SelectionState.assign, List.find?_cons, hg, List.getLast?_cons_cons]


theorem extend_concat (s : SelectionState) (h : List (Device × Int)) (p : Device × Int) :
    s.extend (h ++ [p]) = ⟨some p.1, p.2, s.history ++ h ++ [p]⟩ := by
  rw [extend_append]
  have hh : ∀ (t : SelectionState), (t.extend h).history = t.history ++ h := by
    induction h with
    | nil => intro t; simp [extend_nil]
    | cons q rest ih => intro t; simp [extend_cons, ih, SelectionState.assign]
  simp [extend_cons, extend_nil, SelectionState.assign, hh]

theorem initial_extend_fields (h : List (Device × Int)) :
    (SelectionState.initial.extend h).history = h ∧
    (SelectionState.initial.extend h).deviceId = h.getLast?.map Prod.fst ∧
    (SelectionState.initial.extend h).gpu_use = (h.getLast?.map Prod.snd).getD (-1) := by
  rcases List.eq_nil_or_concat h with rfl | ⟨L, b, rfl⟩
  · simp [extend_nil, SelectionState.initial]
  · rw [List.concat_eq_append, extend_concat]
    simp [SelectionState.initial]

/-! ## The phases of `main`, for every environment -/

theorem deviceLoop_obeys {P : Event → Prop} {err : String → Prop} {bound : Nat} (env : Env)
    {devices : List Device} (hP : ∀ e, PrepareEvent devices e → P e) (hb : 72 < bound)
    (herr : ∀ msg, ApiFailure env bound msg → err msg)
    (platformIndex devicesCount : Nat) :
    ∀ (ds : List Device) (deviceIndex : Nat) (s : SelectionState), (∀ d ∈ ds, d ∈ devices) →
      Obeys (deviceLoop env platformIndex devicesCount ds deviceIndex s) P
        (fun s' => s' = s.extend (scan ds)) err := by
  intro ds
  induction ds with
  | nil => intro i s _; exact obeys_pure rfl
  | cons d rest ih =>
    intro i s hsub
    have hd : d ∈ devices := hsub d (List.mem_cons_self d rest)
    unfold deviceLoop
    refine obeys_bind (obeys_emit (hP _ (.device _ _))) (fun _ _ => ?_)
    refine obeys_bind (obeys_checkedQuery (hP _ (.deviceInfo d _ hd)) (by omega) herr)
      (fun _ _ => ?_)
    refine obeys_bind (obeys_checkedQuery (hP _ (.deviceInfo d _ hd)) (by omega) herr)
      (fun _ _ => ?_)
    refine obeys_bind (obeys_coutCString (fun _ => hP _ (.deviceName _))
      (fun h0 => hP _ (.nullName d _ hd h0))) (fun _ _ => ?_)
    refine obeys_bind (obeys_checkedQuery (hP _ (.deviceInfo d _ hd)) (by omega) herr)
      (fun _ _ => ?_)
    cases hg : isGPU d with
    | true =>
      simp only [if_true]
      exact obeys_pure (by simp [scan, hg, extend_cons, extend_nil])
    | false =>
      simp only [Bool.false_eq_true, if_false]
      exact obeys_mono
        (ih (i + 1) (s.assign d 0) (fun x hx => hsub x (List.mem_cons_of_mem d hx)))
        (fun _ h => h) (fun s' h => by simp [h, scan, hg, extend_cons]) (fun _ h => h)

theorem extend_scan_gpu_use_eq_one {s : SelectionState} (hs : s.gpu_use ≠ 1) (ds : List Device) :
    (s.extend (scan ds)).gpu_use = 1 ↔ ds.any isGPU = true := by
  rw [extend_scan]
  cases ds with
  | nil => simp [hs]
  | cons d ds' => cases hany : (d :: ds').any isGPU <;> simp

theorem platformLoop_obeys {P : Event → Prop} {err : String → Prop} {bound : Nat} (env : Env)
    {devices : List Device} (hP : ∀ e, PrepareEvent devices e → P e) (hb : 72 < bound)
    (herr : ∀ msg, ApiFailure env bound msg → err msg)
    (platformsCount : Nat) :
    ∀ (ps : List (List Device)) (platformIndex : Nat) (s : SelectionState), s.gpu_use ≠ 1 →
      (∀ d ∈ ps.flatten, d ∈ devices) →
      Obeys (platformLoop env platformsCount ps platformIndex s) P
        (fun s' => s' = s.extend (scan ps.flatten)) err := by
  intro ps
  induction ps with
  | nil => intro i s _ _; exact obeys_pure rfl
  | cons ds rest ih =>
    intro i s hs hsub
    have hsub₁ : ∀ d ∈ ds, d ∈ devices := fun d hd => hsub d (by simp [hd])
    have hsub₂ : ∀ d ∈ rest.flatten, d ∈ devices := fun d hd => hsub d (by
      rw [List.flatten_cons]; exact List.mem_append_right _ hd)
    unfold platformLoop
    refine obeys_bind (obeys_emit (hP _ (.platform _ _))) (fun _ _ => ?_)
    refine obeys_bind (obeys_checkedCall (hP _ (.deviceIDs _)) (by omega) herr) (fun _ _ => ?_)
    refine obeys_bind (obeys_checkedCall (hP _ (.deviceIDs _)) (by omega) herr) (fun _ _ => ?_)
    refine obeys_bind (deviceLoop_obeys env hP hb herr i ds.length ds 0 s hsub₁)
      (fun s' hs' => ?_)
    subst hs'
    have hflag := extend_scan_gpu_use_eq_one hs ds
    cases hany : ds.any isGPU with
    | true =>
      rw [if_pos (hflag.mpr hany)]
      exact obeys_pure (by simp [scan_append, hany])
    | false =>
      have hne : (s.extend (scan ds)).gpu_use ≠ 1 := by
        intro h; rw [hflag.mp h] at hany; exact absurd hany (by simp)
      rw [if_neg hne]
      exact obeys_mono (ih (i + 1) _ hne hsub₂) (fun _ h => h)
        (fun s' h => by simp [h, scan_append, hany, extend_append]) (fun _ h => h)

theorem initial_extend_scan_gpu_use (l : List Device) :
    (SelectionState.initial.extend (scan l)).gpu_use = -1 ↔ l = [] := by
  rw [extend_scan]
  cases l with
  | nil => simp [SelectionState.initial]
  | cons d rest => cases hany : (d :: rest).any isGPU <;> simp

theorem selectDevice_obeys {P : Event → Prop} {err : String → Prop} {bound : Nat} (env : Env)
    (hP : ∀ e, PrepareEvent env.platforms.flatten e → P e) (hb : 72 < bound)
    (herr : ∀ msg, ApiFailure env bound msg → err msg)
    (hnone : env.platforms.flatten = [] → err "devices not found!") :
    Obeys (selectDevice env) P
      (fun s => env.platforms.flatten ≠ [] ∧
        s = SelectionState.initial.extend (scan env.platforms.flatten)) err := by
  unfold selectDevice
  refine obeys_bind (obeys_checkedCall (hP _ (.platformIDs _)) (by omega) herr) (fun _ _ => ?_)
  refine obeys_bind (obeys_emit (hP _ (.platformCount _))) (fun _ _ => ?_)
  refine obeys_bind (obeys_checkedCall (hP _ (.platformIDs _)) (by omega) herr) (fun _ _ => ?_)
  refine obeys_bind (platformLoop_obeys env hP hb herr _ env.platforms 0 SelectionState.initial
    (by simp [SelectionState.initial]) (fun _ h => h)) (fun s hs => ?_)
  subst hs
  by_cases hl : env.platforms.flatten = []
  · rw [if_pos ((initial_extend_scan_gpu_use _).mpr hl)]
    exact obeys_bind (obeys_raise (hnone hl)) (fun (_ : PUnit) (h : False) => h.elim)
  · rw [if_neg (fun h => hl ((initial_extend_scan_gpu_use _).mp h))]
    exact obeys_bind (obeys_pure trivial) (fun (_ : PUnit) (_ : True) => obeys_pure ⟨hl, rfl⟩)

theorem createContext_obeys {P : Event → Prop} {err : String → Prop} (env : Env)
    (hP : ∀ e, PrepareEvent env.platforms.flatten e → P e)
    (herr : ∀ msg, ApiFailure env 124 msg → err msg) :
    Obeys (createContext env) P (fun _ => True) err := by
  unfold createContext
  refine obeys_callThenCheck (hP _ (.context _)) (by norm_num) herr (fun _ => ?_)
  refine obeys_bind (obeys_apiCall (hP _ (.queue _)) rfl) ?_
  intro code hcode
  subst hcode
  exact obeys_mono (obeys_checkedCode (by norm_num) herr) (fun _ h => h) (fun _ _ => trivial)
    (fun _ h => h)

theorem createBuffers_obeys {P : Event → Prop} {err : String → Prop} (env : Env) (n : Nat)
    (hP : ∀ e, PrepareEvent env.platforms.flatten e → P e)
    (herr : ∀ msg, ApiFailure env 124 msg → err msg) :
    Obeys (createBuffers env n) P (fun _ => True) err := by
  unfold createBuffers
  refine obeys_callThenCheck (hP _ (.buffer _)) (by norm_num) herr (fun _ => ?_)
  refine obeys_callThenCheck (hP _ (.buffer _)) (by norm_num) herr (fun _ => ?_)
  refine obeys_bind (obeys_apiCall (hP _ (.buffer _)) rfl) ?_
  intro code hcode
  subst hcode
  exact obeys_mono (obeys_checkedCode (by norm_num) herr) (fun _ h => h) (fun _ _ => trivial)
    (fun _ h => h)

theorem prepare_obeys {F : Type} [FloatOps F] {P : Event → Prop} {err : String → Prop}
    (n : Nat) (env : Env) (data : HostData F)
    (hP : ∀ e, PrepareEvent env.platforms.flatten e → P e)
    (herr : ∀ msg, ApiFailure env 124 msg → err msg)
    (hinit : env.ocl_init = false → err "Can't init OpenCL driver!")
    (hnone : env.platforms.flatten = [] → err "devices not found!") :
    Obeys (prepare n env data) P
      (fun _ => env.ocl_init = true ∧ env.platforms.flatten ≠ []) err := by
  unfold prepare
  refine obeys_bind (obeys_emit (hP _ .init)) (fun _ _ => ?_)
  cases hi : env.ocl_init with
  | false =>
    exact obeys_bind (obeys_raise (hinit hi)) (fun (_ : PUnit) (h : False) => h.elim)
  | true =>
    refine obeys_bind (obeys_pure trivial) (fun (_ : PUnit) (_ : True) => ?_)
    refine obeys_bind (selectDevice_obeys env hP (by norm_num) herr hnone) (fun _ hs => ?_)
    refine obeys_bind (createContext_obeys env hP herr) (fun _ _ => ?_)
    refine obeys_bind (obeys_emit (hP _ (.generated _))) (fun _ _ => ?_)
    refine obeys_bind (createBuffers_obeys env n hP herr) (fun _ _ => ?_)
    exact obeys_pure ⟨rfl, hs.1⟩

theorem loadKernelSource_obeys {P : Event → Prop} {err : String → Prop} (env : Env)
    (hempty : env.kernel_sources.length = 0 →
      err "Empty source file! May be you forgot to configure working directory properly?") :
    Obeys (loadKernelSource env) P
      (fun src => src = env.kernel_sources ∧ env.kernel_sources.length ≠ 0) err := by
  unfold loadKernelSource
  by_cases h : env.kernel_sources.length = 0
  · simp only [h, if_true]
    exact obeys_bind (obeys_raise (hempty h)) (fun (_ : PUnit) (h : False) => h.elim)
  · simp only [h, if_false]
    exact obeys_bind (obeys_pure trivial) (fun (_ : PUnit) (_ : True) => obeys_pure ⟨rfl, h⟩)

theorem buildProgram_obeys {P : Event → Prop} {err : String → Prop} (env : Env)
    (kernel_sources : String)
    (hP : ∀ e, BuildEvent env e → P e) (herr : ∀ msg, ApiFailure env 157 msg → err msg)
    (hlen : VECTOR_MAX_SIZE < env.log_size → err lengthErrorMessage) :
    Obeys (buildProgram env kernel_sources) P
      (fun _ => env.status 137 [] = CL_SUCCESS ∧ env.status 141 [] = CL_SUCCESS ∧
        env.status 147 [] = CL_SUCCESS ∧ env.status 149 [] = CL_SUCCESS) err := by
  unfold buildProgram
  refine obeys_callThenCheck (hP _ (.program _)) (by norm_num) herr (fun h137 => ?_)
  refine obeys_callThenCheck (hP _ (.build _ h137)) (by norm_num) herr (fun h141 => ?_)
  refine obeys_bind (obeys_checkedCall (hP _ (.info _ h137 h141)) (by norm_num) herr)
    (fun _ h147 => ?_)
  by_cases hfit : env.log_size > VECTOR_MAX_SIZE
  · simp only [hfit, if_true]
    exact obeys_bind (obeys_raise (hlen hfit)) (fun (_ : PUnit) (h : False) => h.elim)
  simp only [hfit, if_false]
  refine obeys_bind (obeys_pure trivial) (fun (_ : PUnit) (_ : True) => ?_)
  refine obeys_bind (obeys_checkedCall (hP _ (.info _ h137 h141)) (by norm_num) herr)
    (fun _ h149 => ?_)
  by_cases hlog : env.log_size > 1
  · simp only [hlog, if_true]
    have hshown : LogShown env := ⟨hlog, by omega, h137, h141, h147, h149⟩
    refine obeys_bind (obeys_emit (hP _ (.header hshown))) (fun _ _ => ?_)
    exact obeys_mono (obeys_emit (hP _ (.text hshown))) (fun _ h => h)
      (fun _ _ => ⟨h137, h141, h147, h149⟩) (fun _ h => h)
  · simp only [hlog, if_false]
    exact obeys_pure ⟨h137, h141, h147, h149⟩

theorem createKernel_obeys {P : Event → Prop} {err : String → Prop} (env : Env)
    (hP : ∀ e, ExecuteEvent e → P e) (herr : ∀ msg, ApiFailure env 218 msg → err msg) :
    Obeys (createKernel env) P (fun _ => True) err := by
  unfold createKernel
  refine obeys_callThenCheck (hP _ (.kernel _)) (by norm_num) herr (fun _ => ?_)
  refine obeys_bind (obeys_apiCall (hP _ (.arg _)) trivial) (fun _ (_ : True) => ?_)
  refine obeys_bind (obeys_apiCall (hP _ (.arg _)) trivial) (fun _ (_ : True) => ?_)
  refine obeys_bind (obeys_apiCall (hP _ (.arg _)) trivial) (fun _ (_ : True) => ?_)
  refine obeys_bind (obeys_apiCall (hP _ (.arg _)) trivial) (fun _ (_ : True) => ?_)
  exact obeys_pure trivial

theorem kernelTrial_obeys {P : Event → Prop} {err : String → Prop} (env : Env)
    (hP : ∀ e, ExecuteEvent e → P e) (herr : ∀ msg, ApiFailure env 218 msg → err msg)
    (global_work_size workGroupSize i : Nat) (t : timer) :
    Obeys (kernelTrial env global_work_size workGroupSize i t) P
      (fun t' => t'.laps = t.laps) err := by
  unfold kernelTrial
  refine obeys_bind (obeys_checkedCall (hP _ (.enqueue _)) (by norm_num) herr) (fun _ _ => ?_)
  refine obeys_bind (obeys_checkedCall (hP _ (.wait _)) (by norm_num) herr) (fun _ _ => ?_)
  exact obeys_pure rfl

theorem kernelTiming_obeys {P : Event → Prop} {err : String → Prop} (env : Env) (n : Nat)
    (hP : ∀ e, ExecuteEvent e → P e) (herr : ∀ msg, ApiFailure env 218 msg → err msg) :
    Obeys (kernelTiming env n) P (fun t => t.laps.length = 1) err := by
  unfold kernelTiming
  refine obeys_bind obeys_create (fun t ht => ?_)
  refine obeys_bind (obeys_forLoop (fun i s (hs : s.laps = []) =>
    obeys_mono (kernelTrial_obeys env hP herr _ _ i s) (fun _ h => h)
      (fun t' (h : t'.laps = s.laps) => h.trans hs) (fun _ h => h)) 20 0 t ht) (fun t1 ht1 => ?_)
  refine obeys_bind (obeys_nextLap t1) (fun t2 ht2 => ?_)
  have hlen : t2.laps.length = 1 := by rw [ht2, ht1]; rfl
  refine obeys_bind (obeys_emit (hP _ (.kernelStat _ _ (by simp [kernelLabels]) hlen)))
    (fun _ _ => ?_)
  refine obeys_bind (obeys_emit (hP _ (.kernelStat _ _ (by simp [kernelLabels]) hlen)))
    (fun _ _ => ?_)
  refine obeys_bind (obeys_emit (hP _ (.kernelStat _ _ (by simp [kernelLabels]) hlen)))
    (fun _ _ => ?_)
  exact obeys_pure hlen

theorem transferTrial_obeys {F : Type} {P : Event → Prop} {err : String → Prop} (env : Env)
    (data : HostData F) (hP : ∀ e, ExecuteEvent e → P e)
    (herr : ∀ msg, ApiFailure env 218 msg → err msg) (n i : Nat) (s : timer × Array F) :
    Obeys (transferTrial env data n i s) P
      (fun s' => s'.1.laps.length = s.1.laps.length + 1) err := by
  unfold transferTrial
  refine obeys_bind (obeys_checkedCall (hP _ (.read _)) (by norm_num) herr) (fun _ _ => ?_)
  refine obeys_bind (obeys_checkedCall (hP _ (.wait _)) (by norm_num) herr) (fun _ _ => ?_)
  refine obeys_bind (obeys_nextLap s.1) (fun t ht => ?_)
  exact obeys_pure ht

theorem transferTiming_obeys {F : Type} {P : Event → Prop} {err : String → Prop} (env : Env)
    (data : HostData F) (hP : ∀ e, ExecuteEvent e → P e)
    (herr : ∀ msg, ApiFailure env 218 msg → err msg) (n : Nat) (cs : Array F) :
    Obeys (transferTiming env data n cs) P (fun s => s.1.laps.length = 20) err := by
  unfold transferTiming
  refine obeys_bind obeys_create (fun t ht => ?_)
  refine obeys_bind (obeys_forLoop (fun i (s : timer × Array F) (hs : s.1.laps.length = i) =>
    obeys_mono (transferTrial_obeys env data hP herr n i s) (fun _ h => h)
      (fun s' (h : s'.1.laps.length = s.1.laps.length + 1) => by rw [h, hs])
      (fun _ h => h)) 20 0 (t, cs) (by simp [ht])) (fun s hs => ?_)
  obtain ⟨t1, cs1⟩ := s
  have hlen : t1.laps.length = 20 := hs
  refine obeys_bind (obeys_emit (hP _ (.transferStat _ _ (by simp [transferLabels]) hlen)))
    (fun _ _ => ?_)
  refine obeys_bind (obeys_emit (hP _ (.transferStat _ _ (by simp [transferLabels]) hlen)))
    (fun _ _ => ?_)
  exact obeys_pure hlen

theorem release_obeys {P : Event → Prop} {err : String → Prop} (env : Env)
    (hP : ∀ e, ExecuteEvent e → P e) (herr : ∀ msg, ApiFailure env 218 msg → err msg) :
    Obeys (release env) P (fun _ => True) err := by
  unfold release
  refine obeys_bind (obeys_checkedCall (hP _ (.releaseMem _)) (by norm_num) herr) (fun _ _ => ?_)
  refine obeys_bind (obeys_checkedCall (hP _ (.releaseMem _)) (by norm_num) herr) (fun _ _ => ?_)
  refine obeys_bind (obeys_checkedCall (hP _ (.releaseMem _)) (by norm_num) herr) (fun _ _ => ?_)
  refine obeys_bind (obeys_checkedCall (hP _ (.releaseQueue _)) (by norm_num) herr)
    (fun _ _ => ?_)
  exact obeys_mono (obeys_checkedCall (hP _ (.releaseContext _)) (by norm_num) herr)
    (fun _ h => h) (fun _ _ => trivial) (fun _ h => h)

/-! ## The validation loop -/

theorem validationLoop_clean {F : Type} [FloatOps F] (as bs cs : Array F) (n : Nat) :
    ∀ (k i : Nat) (examined : List Nat), i + k = n →
      (∀ j, i ≤ j → j < n → differs as bs cs j = false) →
      validationLoop as bs cs n i examined = (.ok (), examined ++ List.range' i k) := by
  intro k
  induction k with
  | zero =>
    intro i examined hik _
    rw [validationLoop, if_neg (by omega)]
    simp
  | succ k ih =>
    intro i examined hik hclean
    rw [validationLoop, if_pos (by omega)]
    have hd := hclean i (Nat.le_refl i) (by omega)
    simp only [hd, Bool.false_eq_true, if_false]
    rw [ih (i + 1) (examined ++ [i]) (by omega) (fun j h1 h2 => hclean j (by omega) h2)]
    simp [List.range'_succ]

theorem validationLoop_mismatch {F : Type} [FloatOps F] (as bs cs : Array F) (n : Nat) :
    ∀ (d i : Nat) (examined : List Nat), i + d < n →
      differs as bs cs (i + d) = true →
      (∀ j, i ≤ j → j < i + d → differs as bs cs j = false) →
      validationLoop as bs cs n i examined
        = (.error "CPU and GPU results differ!", examined ++ List.range' i (d + 1)) := by
  intro d
  induction d with
  | zero =>
    intro i examined hlt hdiff _
    rw [validationLoop, if_pos (by omega)]
    simp only [Nat.add_zero] at hdiff
    simp [hdiff]
  | succ d ih =>
    intro i examined hlt hdiff hclean
    rw [validationLoop, if_pos (by omega)]
    have hd := hclean i (Nat.le_refl i) (by omega)
    simp only [hd, Bool.false_eq_true, if_false]
    have h2 : i + 1 + d = i + (d + 1) := by omega
    rw [ih (i + 1) (examined ++ [i]) (by omega) (by rw [h2]; exact hdiff)
      (fun j h1 h3 => hclean j (by omega) (by omega))]
    simp [List.range'_succ]

/-- The smallest index below `n` at which the test of line 203 holds, when there is one. -/
theorem exists_first_mismatch {F : Type} [FloatOps F] (as bs cs : Array F) (n : Nat)
    (h : ∃ k, k < n ∧ differs as bs cs k = true) :
    ∃ k, k < n ∧ differs as bs cs k = true ∧ ∀ j, j < k → differs as bs cs j = false := by
  classical
  have hex : ∃ k, k < n ∧ differs as bs cs k = true := h
  refine ⟨Nat.find hex, (Nat.find_spec hex).1, (Nat.find_spec hex).2, ?_⟩
  intro j hj
  have := Nat.find_min hex hj
  simp only [not_and, Bool.not_eq_true] at this
  exact this (lt_trans hj (Nat.find_spec hex).1)

theorem validate_cases {F : Type} [FloatOps F] (as bs cs : Array F) (n : Nat) :
    ((∀ j, j < n → differs as bs cs j = false) ∧
      validate as bs cs n = (.ok (), List.range n)) ∨
    (∃ k, k < n ∧ differs as bs cs k = true ∧ (∀ j, j < k → differs as bs cs j = false) ∧
      validate as bs cs n = (.error "CPU and GPU results differ!", List.range (k + 1))) := by
  by_cases h : ∃ k, k < n ∧ differs as bs cs k = true
  · obtain ⟨k, hk, hd, hmin⟩ := exists_first_mismatch as bs cs n h
    refine Or.inr ⟨k, hk, hd, hmin, ?_⟩
    unfold validate
    rw [validationLoop_mismatch as bs cs n k 0 [] (by omega) (by simpa using hd)
      (fun j _ h2 => hmin j (by omega))]
    simp [List.range_eq_range']
  · have hclean : ∀ j, j < n → differs as bs cs j = false := by
      intro j hj
      cases hd : differs as bs cs j with
      | false => rfl
      | true => exact absurd ⟨j, hj, hd⟩ h
    refine Or.inl ⟨hclean, ?_⟩
    unfold validate
    rw [validationLoop_clean as bs cs n n 0 [] (by omega) (fun j _ h2 => hclean j h2)]
    simp [List.range_eq_range']

/-! ## The whole of `main`, for every environment -/

theorem apiFailure_mono {env : Env} {b₁ b₂ : Nat} (h : b₁ ≤ b₂) {msg : String}
    (hf : ApiFailure env b₁ msg) : ApiFailure env b₂ msg := by
  obtain ⟨l, line, iter, hl, hs, hm⟩ := hf
  exact ⟨l, line, iter, lt_of_lt_of_le hl h, hs, hm⟩

theorem finish_obeys {F : Type} [FloatOps F] {P : Event → Prop} {err : String → Prop}
    (n : Nat) (env : Env) (data : HostData F) (as bs cs : Array F)
    (hP : ∀ e, ExecuteEvent e → P e) (herr : ∀ msg, ApiFailure env 218 msg → err msg)
    (hdiff : err "CPU and GPU results differ!") :
    Obeys (finish n env data as bs cs) P (fun r => r = 0) err := by
  unfold finish
  refine obeys_bind (transferTiming_obeys env data hP herr n cs) (fun s _ => ?_)
  obtain ⟨t, cs1⟩ := s
  simp only []
  refine obeys_bind (obeys_liftExcept (fun _ _ => trivial) ?_) (fun _ (_ : True) => ?_)
  · intro msg hm
    rcases validate_cases as bs cs1 n with ⟨_, h⟩ | ⟨k, _, _, _, h⟩
    · rw [h] at hm; simp at hm
    · rw [h] at hm
      simp only [Except.error.injEq] at hm
      exact hm ▸ hdiff
  · refine obeys_bind (release_obeys env hP herr) (fun _ _ => ?_)
    exact obeys_pure rfl

theorem execute_obeys {F : Type} [FloatOps F] {P : Event → Prop} {err : String → Prop}
    (n : Nat) (env : Env) (data : HostData F) (as bs cs : Array F)
    (hP : ∀ e, ExecuteEvent e → P e) (herr : ∀ msg, ApiFailure env 218 msg → err msg)
    (hdiff : err "CPU and GPU results differ!") :
    Obeys (execute n env data as bs cs) P (fun r => r = 0) err := by
  unfold execute
  refine obeys_bind (createKernel_obeys env hP herr) (fun _ _ => ?_)
  refine obeys_bind (kernelTiming_obeys env n hP herr) (fun _ _ => ?_)
  exact finish_obeys n env data as bs cs hP herr hdiff

/-- The run of `main` in terms of its phases: which events each phase may append, given
what must have happened for the phase to be reached, and which messages may be thrown. -/
theorem mainFor_obeys {F : Type} [FloatOps F] {P : Event → Prop} {err : String → Prop}
    (n : Nat) (env : Env) (data : HostData F)
    (hP₁ : ∀ e, PrepareEvent env.platforms.flatten e → P e)
    (hP₂ : env.ocl_init = true → env.platforms.flatten ≠ [] →
      env.kernel_sources.length ≠ 0 → ∀ e, BuildEvent env e → P e)
    (hP₃ : env.kernel_sources.length ≠ 0 → env.status 137 [] = CL_SUCCESS →
      env.status 141 [] = CL_SUCCESS → env.status 147 [] = CL_SUCCESS →
      env.status 149 [] = CL_SUCCESS → ∀ e, ExecuteEvent e → P e)
    (herr : ∀ msg, ApiFailure env 218 msg → err msg)
    (hinit : env.ocl_init = false → err "Can't init OpenCL driver!")
    (hnone : env.platforms.flatten = [] → err "devices not found!")
    (hempty : env.kernel_sources.length = 0 →
      err "Empty source file! May be you forgot to configure working directory properly?")
    (hdiff : env.kernel_sources.length ≠ 0 → err "CPU and GPU results differ!")
    (hlen : VECTOR_MAX_SIZE < env.log_size → err lengthErrorMessage) :
    Obeys (mainFor n env data) P (fun r => r = 0) err := by
  unfold mainFor
  refine obeys_bind (prepare_obeys n env data hP₁
    (fun msg h => herr msg (apiFailure_mono (by norm_num) h)) hinit hnone) (fun r hr => ?_)
  obtain ⟨as, bs, cs⟩ := r
  simp only []
  refine obeys_bind (loadKernelSource_obeys env hempty) (fun src hsrc => ?_)
  refine obeys_bind (buildProgram_obeys env src (hP₂ hr.1 hr.2 hsrc.2)
    (fun msg h => herr msg (apiFailure_mono (by norm_num) h)) hlen) (fun _ hb => ?_)
  exact execute_obeys n env data as bs cs (hP₃ hsrc.2 hb.1 hb.2.1 hb.2.2.1 hb.2.2.2) herr
    (hdiff hsrc.2)

/-! ## Telling the messages apart -/

theorem errorMessage_head (err : Int) (filename : String) (line : Int) :
    (errorMessage err filename line).data.head? = some 'O' := by
  simp [errorMessage]

theorem errorMessage_ne {msg : String} (h : msg.data.head? ≠ some 'O') (err : Int)
    (filename : String) (line : Int) : errorMessage err filename line ≠ msg := by
  intro he
  exact h (he ▸ errorMessage_head err filename line)

theorem apiFailure_ne {env : Env} {bound : Nat} {msg other : String}
    (hf : ApiFailure env bound msg) (h : other.data.head? ≠ some 'O') : msg ≠ other := by
  obtain ⟨l, line, iter, _, _, hm⟩ := hf
  rw [hm]
  exact errorMessage_ne h _ _ _

theorem not_apiFailure {env : Env} {bound : Nat} (hs : SucceedBefore env bound) (msg : String) :
    ¬ ApiFailure env bound msg := by
  rintro ⟨l, line, iter, hl, h, _⟩
  exact h (hs line iter hl)

/-! ## The work size without wraparound -/

theorem sizeSub_sizeAdd_one {n g : Nat} (hg : 0 < g) (h : n + g < 2 ^ 64) :
    sizeSub (sizeAdd n g) 1 = n + g - 1 := by
  have h1 : (n + g) % 2 ^ 64 = n + g := Nat.mod_eq_of_lt h
  have h2 : (1 : Nat) % 2 ^ 64 = 1 := by norm_num
  have h3 : n + g + 2 ^ 64 - 1 = (n + g - 1) + 2 ^ 64 := by omega
  simp only [sizeSub, sizeAdd, SIZE_BITS]
  rw [h1, h1, h2, h3, Nat.add_mod_right]
  exact Nat.mod_eq_of_lt (by omega)

theorem global_work_size_eq_ideal {n g : Nat} (hg : 0 < g) (h : n + g < 2 ^ 64) :
    global_work_size n g = idealWorkSize n g := by
  have h2 : (n + g - 1) / g * g ≤ n + g - 1 := Nat.div_mul_le_self _ _
  unfold global_work_size
  rw [sizeSub_sizeAdd_one hg h]
  simp only [idealWorkSize, sizeMul, sizeDiv, SIZE_BITS]
  exact Nat.mod_eq_of_lt (by omega)

theorem idealWorkSize_dvd (n g : Nat) : g ∣ idealWorkSize n g :=
  Dvd.intro_left _ rfl

theorem idealWorkSize_ge {n g : Nat} (hg : 0 < g) : n ≤ idealWorkSize n g := by
  unfold idealWorkSize
  have h := Nat.div_add_mod (n + g - 1) g
  have hm := Nat.mod_lt (n + g - 1) hg
  have hc : g * ((n + g - 1) / g) = (n + g - 1) / g * g := Nat.mul_comm _ _
  omega

theorem idealWorkSize_lt {n g : Nat} (hg : 0 < g) : idealWorkSize n g < n + g := by
  unfold idealWorkSize
  have h2 : (n + g - 1) / g * g ≤ n + g - 1 := Nat.div_mul_le_self _ _
  omega

theorem idealWorkSize_least {n g m : Nat} (hg : 0 < g) (hd : g ∣ m) (hm : n ≤ m) :
    idealWorkSize n g ≤ m := by
  obtain ⟨c, rfl⟩ := hd
  unfold idealWorkSize
  have : (n + g - 1) / g ≤ c := by
    apply Nat.le_of_lt_succ
    rw [Nat.div_lt_iff_lt_mul hg, Nat.succ_mul, Nat.mul_comm c g]
    omega
  calc (n + g - 1) / g * g ≤ c * g := Nat.mul_le_mul_right _ this
    _ = g * c := Nat.mul_comm _ _

/-! ## Device selection -/

theorem selectDevice_result (env : Env) (w : World) :
    (env.platforms.flatten ≠ [] ∧
      (selectDevice env w).1
        = .ok (SelectionState.initial.extend (scan env.platforms.flatten))) ∨
    (env.platforms.flatten = [] ∧ (selectDevice env w).1 = .error "devices not found!") ∨
    (∃ msg, ApiFailure env 89 msg ∧ (selectDevice env w).1 = .error msg) := by
  have h := selectDevice_obeys env (fun e (he : PrepareEvent env.platforms.flatten e) => he) (by norm_num)
    (fun msg hm => (Or.inl hm : ApiFailure env 89 msg ∨
      (env.platforms.flatten = [] ∧ msg = "devices not found!")))
    (fun hn => Or.inr ⟨hn, rfl⟩)
  obtain ⟨_, hok, herr⟩ := h w
  cases hr : (selectDevice env w).1 with
  | ok s =>
    obtain ⟨h1, h2⟩ := hok s hr
    exact Or.inl ⟨h1, by rw [h2]⟩
  | error msg =>
    rcases herr msg hr with hf | ⟨hn, hm⟩
    · exact Or.inr (Or.inr ⟨msg, hf, rfl⟩)
    · exact Or.inr (Or.inl ⟨hn, by rw [hm]⟩)

theorem selectDevice_of_success {env : Env} (hs : SucceedBefore env 89) (w : World) :
    (selectDevice env w).1 =
      if env.platforms.flatten = [] then .error "devices not found!"
      else .ok (SelectionState.initial.extend (scan env.platforms.flatten)) := by
  rcases selectDevice_result env w with ⟨h1, h2⟩ | ⟨h1, h2⟩ | ⟨msg, hf, _⟩
  · rw [if_neg h1, h2]
  · rw [if_pos h1, h2]
  · exact absurd hf (not_apiFailure hs msg)

theorem chosen_device (l : List Device) (hl : l ≠ []) :
    ∃ d, (SelectionState.initial.extend (scan l)).deviceId = some d ∧
      ((∃ g ∈ l, isGPU g = true) → l.find? isGPU = some d) ∧
      ((∀ g ∈ l, isGPU g = false) → l.getLast? = some d) := by
  rw [extend_scan, if_neg hl]
  cases hf : l.find? isGPU with
  | some g =>
    refine ⟨g, rfl, fun _ => rfl, ?_⟩
    intro hall
    have := List.find?_some hf
    rw [hall g (List.mem_of_find?_eq_some hf)] at this
    exact absurd this (by simp)
  | none =>
    obtain ⟨d, hd⟩ : ∃ d, l.getLast? = some d := by
      cases hlast : l.getLast? with
      | none => exact absurd (List.getLast?_eq_none_iff.mp hlast) hl
      | some d => exact ⟨d, rfl⟩
    refine ⟨d, hd, ?_, fun _ => hd⟩
    rintro ⟨g, hg, hgpu⟩
    have := List.find?_eq_none.mp hf g hg
    exact absurd hgpu this

/-- C1: when the calls of the selection (lines 44-72) succeed and at least one device
exists, lines 40-88 select a device: the first GPU-class device of the platform-major
enumeration if there is one, and the last enumerated device otherwise.  In every
environment, a selection that returns has selected that device.  The devices
`[CPU0, GPU0, CPU1]` select `GPU0` and `[CPU0, CPU1]` select `CPU1`, however they are
spread over platforms. -/
theorem selectDevice_prefers_first_gpu :
    (∀ (env : Env) (w : World), SucceedBefore env 89 → env.platforms.flatten ≠ [] →
      ∃ s d, (selectDevice env w).1 = .ok s ∧ s.deviceId = some d ∧
        ((∃ g ∈ env.platforms.flatten, isGPU g = true) →
          env.platforms.flatten.find? isGPU = some d) ∧
        ((∀ g ∈ env.platforms.flatten, isGPU g = false) →
          env.platforms.flatten.getLast? = some d)) ∧
    (∀ (env : Env) (w : World) (s : SelectionState), (selectDevice env w).1 = .ok s →
      ∃ d, s.deviceId = some d ∧
        ((∃ g ∈ env.platforms.flatten, isGPU g = true) →
          env.platforms.flatten.find? isGPU = some d) ∧
        ((∀ g ∈ env.platforms.flatten, isGPU g = false) →
          env.platforms.flatten.getLast? = some d)) ∧
    (∀ (env : Env) (w : World), SucceedBefore env 89 →
      env.platforms.flatten = [CPU0, GPU0, CPU1] →
      ∃ s, (selectDevice env w).1 = .ok s ∧ s.deviceId = some GPU0) ∧
    (∀ (env : Env) (w : World), SucceedBefore env 89 → env.platforms.flatten = [CPU0, CPU1] →
      ∃ s, (selectDevice env w).1 = .ok s ∧ s.deviceId = some CPU1) := by
  refine ⟨?_, ?_, ?_, ?_⟩
  · intro env w hs hl
    obtain ⟨d, hd, hgpu, hlast⟩ := chosen_device env.platforms.flatten hl
    refine ⟨SelectionState.initial.extend (scan env.platforms.flatten), d, ?_, hd, hgpu,
      hlast⟩
    rw [selectDevice_of_success hs, if_neg hl]
  · intro env w s hok
    rcases selectDevice_result env w with ⟨h1, h2⟩ | ⟨_, h2⟩ | ⟨msg, _, h2⟩
    · rw [h2] at hok
      simp only [Except.ok.injEq] at hok
      rw [← hok]
      exact chosen_device env.platforms.flatten h1
    · rw [h2] at hok; simp at hok
    · rw [h2] at hok; simp at hok
  · intro env w hs hl
    refine ⟨SelectionState.initial.extend (scan env.platforms.flatten), ?_, ?_⟩
    · rw [selectDevice_of_success hs, if_neg (by simp [hl])]
    · rw [hl]; decide
  · intro env w hs hl
    refine ⟨SelectionState.initial.extend (scan env.platforms.flatten), ?_, ?_⟩
    · rw [selectDevice_of_success hs, if_neg (by simp [hl])]
    · rw [hl]; decide

/-- Witness of C1: one platform holding `CPU0, GPU0, CPU1`. -/
theorem selectDevice_prefers_first_gpu_witness :
    SucceedBefore (quietEnv [[CPU0, GPU0, CPU1]]) 89 ∧
    (quietEnv [[CPU0, GPU0, CPU1]]).platforms.flatten ≠ [] ∧
    ∃ s d, (selectDevice (quietEnv [[CPU0, GPU0, CPU1]]) World.start).1 = .ok s ∧
      s.deviceId = some d ∧
      ((∃ g ∈ (quietEnv [[CPU0, GPU0, CPU1]]).platforms.flatten, isGPU g = true) →
        (quietEnv [[CPU0, GPU0, CPU1]]).platforms.flatten.find? isGPU = some d) ∧
      ((∀ g ∈ (quietEnv [[CPU0, GPU0, CPU1]]).platforms.flatten, isGPU g = false) →
        (quietEnv [[CPU0, GPU0, CPU1]]).platforms.flatten.getLast? = some d) :=
  ⟨fun _ _ _ => rfl, by decide,
    selectDevice_prefers_first_gpu.1 (quietEnv [[CPU0, GPU0, CPU1]]) World.start
      (fun _ _ _ => rfl) (by decide)⟩

theorem flatten_eq_nil_iff_sum (ps : List (List Device)) :
    (ps.map List.length).sum = 0 ↔ ps.flatten = [] := by
  rw [← List.length_flatten, List.length_eq_zero]

/-- C2: when the calls of the selection (lines 44-72) succeed, selection throws "devices not found!" exactly when the
platforms hold no device in total, which covers no platform at all and platforms that
are all empty; and in no environment is that message thrown when a device exists. -/
theorem selectDevice_no_device_iff :
    (∀ (env : Env) (w : World), SucceedBefore env 89 →
      ((selectDevice env w).1 = .error "devices not found!" ↔
        (env.platforms.map List.length).sum = 0)) ∧
    (∀ (env : Env) (w : World), SucceedBefore env 89 → env.platforms = [] →
      (selectDevice env w).1 = .error "devices not found!") ∧
    (∀ (env : Env) (w : World), SucceedBefore env 89 → (∀ p ∈ env.platforms, p = []) →
      (selectDevice env w).1 = .error "devices not found!") ∧
    (∀ (env : Env) (w : World), (env.platforms.map List.length).sum ≠ 0 →
      (selectDevice env w).1 ≠ .error "devices not found!") := by
  refine ⟨?_, ?_, ?_, ?_⟩
  · intro env w hs
    rw [selectDevice_of_success hs, flatten_eq_nil_iff_sum]
    by_cases hl : env.platforms.flatten = [] <;> simp [hl]
  · intro env w hs hp
    rw [selectDevice_of_success hs, if_pos (by simp [hp])]
  · intro env w hs hp
    rw [selectDevice_of_success hs, if_pos (List.flatten_eq_nil_iff.mpr hp)]
  · intro env w hsum
    have hl : env.platforms.flatten ≠ [] := fun h => hsum ((flatten_eq_nil_iff_sum _).mpr h)
    rcases selectDevice_result env w with ⟨_, h2⟩ | ⟨h1, _⟩ | ⟨msg, hf, h2⟩
    · rw [h2]; simp
    · exact absurd h1 hl
    · rw [h2]
      intro he
      simp only [Except.error.injEq] at he
      exact apiFailure_ne hf (by decide) he

/-- Witness of C2: two platforms without devices. -/
theorem selectDevice_no_device_iff_witness :
    SucceedBefore (quietEnv [[], []]) 89 ∧
    ((selectDevice (quietEnv [[], []]) World.start).1 = .error "devices not found!" ↔
      (((quietEnv [[], []]).platforms.map List.length).sum = 0)) :=
  ⟨fun _ _ _ => rfl,
    selectDevice_no_device_iff.1 (quietEnv [[], []]) World.start (fun _ _ _ => rfl)⟩

theorem scan_flags (l : List Device) :
    ((SelectionState.initial.extend (scan l)).gpu_use = 1 ↔ ∃ d ∈ l, isGPU d = true) ∧
    ((SelectionState.initial.extend (scan l)).gpu_use = 0 ↔
      l ≠ [] ∧ ∀ d ∈ l, isGPU d = false) ∧
    ((SelectionState.initial.extend (scan l)).gpu_use = -1 ↔ l = []) := by
  rw [extend_scan]
  cases l with
  | nil => simp [SelectionState.initial]
  | cons d rest =>
    cases hany : (d :: rest).any isGPU with
    | true =>
      have h := List.any_eq_true.mp hany
      refine ⟨by simpa using h, ?_, by simp⟩
      simp only [List.cons_ne_self, if_false, if_true, reduceCtorEq]
      constructor
      · intro h0; simp at h0
      · rintro ⟨_, hall⟩
        obtain ⟨g, hg, hgpu⟩ := h
        rw [hall g hg] at hgpu
        exact absurd hgpu (by simp)
    | false =>
      have hnone : ∀ g ∈ d :: rest, isGPU g = false := by
        intro g hg
        cases hgpu : isGPU g with
        | false => rfl
        | true =>
          have : (d :: rest).any isGPU = true := List.any_eq_true.mpr ⟨g, hg, hgpu⟩
          rw [hany] at this
          exact absurd this (by simp)
      refine ⟨?_, ?_, by simp⟩
      · simp only [reduceCtorEq, if_false, Bool.false_eq_true]
        constructor
        · intro h; simp at h
        · rintro ⟨g, hg, hgpu⟩
          rw [hnone g hg] at hgpu
          exact absurd hgpu (by simp)
      · simp only [reduceCtorEq, if_false, Bool.false_eq_true]
        exact ⟨fun _ => ⟨by simp, hnone⟩, fun _ => by trivial⟩

/-- The state the two loops end in, read off its ghost history. -/
theorem scan_state_facts (l : List Device) :
    (SelectionState.initial.extend (scan l)).history.map Prod.fst =
        l.takeWhile (fun d => !isGPU d) ++ (l.find? isGPU).toList ∧
    (∀ p ∈ (SelectionState.initial.extend (scan l)).history,
      p.2 = if isGPU p.1 then 1 else 0) ∧
    (∀ pre p post, (SelectionState.initial.extend (scan l)).history = pre ++ p :: post →
      p.2 = 1 → post = []) ∧
    (SelectionState.initial.extend (scan l)).deviceId
      = (SelectionState.initial.extend (scan l)).history.getLast?.map Prod.fst ∧
    (SelectionState.initial.extend (scan l)).gpu_use
      = ((SelectionState.initial.extend (scan l)).history.getLast?.map Prod.snd).getD (-1) ∧
    ((SelectionState.initial.extend (scan l)).gpu_use = -1 ∨
      (SelectionState.initial.extend (scan l)).gpu_use = 0 ∨
      (SelectionState.initial.extend (scan l)).gpu_use = 1) := by
  obtain ⟨hh, hd, hg⟩ := initial_extend_fields (scan l)
  obtain ⟨f1, f0, fn⟩ := scan_flags l
  refine ⟨?_, ?_, ?_, ?_, ?_, ?_⟩
  · rw [hh, scan_map_fst]
  · intro p hp
    rw [hh] at hp
    exact (scan_flag_mem hp).2
  · intro pre p post hsplit hp
    rw [hh] at hsplit
    exact scan_stops_at_gpu hsplit hp
  · rw [hd, hh]
  · rw [hg, hh]
  · by_cases hl : l = []
    · exact Or.inl (fn.mpr hl)
    · by_cases hgpu : ∃ d ∈ l, isGPU d = true
      · exact Or.inr (Or.inr (f1.mpr hgpu))
      · refine Or.inr (Or.inl (f0.mpr ⟨hl, ?_⟩))
        intro d hd'
        cases hx : isGPU d with
        | false => rfl
        | true => exact absurd ⟨d, hd', hx⟩ hgpu

/-! ## What the selection loops query -/

theorem emit_bind {β : Type} (e : Event) (f : Unit → Run β) (w : World) :
    (emit e >>= f) w = f () ⟨w.trace ++ [e], w.clock⟩ := rfl

theorem coutCString_bind {β : Type} (label : String) (size : Nat) (text : String)
    (f : Unit → Run β) (w : World) :
    (coutCString label size text >>= f) w =
      f () ⟨w.trace ++ [if size = 0 then .outNull label else .out (label ++ text)],
        w.clock⟩ := by
  unfold coutCString cout
  by_cases h : size = 0 <;> simp [h, emit_bind]

theorem checkedQuery_bind_ok {β : Type} {env : Env} {line : Nat} {iter : List Nat}
    (h : env.status line iter = CL_SUCCESS) (l : Nat) (d : Device) (sizes : List Nat)
    (f : Unit → Run β) (w : World) :
    (OCL_SAFE_CALL env l (deviceQuery env d sizes line iter) >>= f) w =
      f () ⟨w.trace ++ [.query d sizes], w.clock + env.latency line iter⟩ := by
  simp [OCL_SAFE_CALL, run_bind, deviceQuery, liftExcept, h, reportError_success]

theorem checkedQuery_bind_error {β : Type} {env : Env} {line : Nat} {iter : List Nat}
    (h : env.status line iter ≠ CL_SUCCESS) (l : Nat) (d : Device) (sizes : List Nat)
    (f : Unit → Run β) (w : World) :
    (OCL_SAFE_CALL env l (deviceQuery env d sizes line iter) >>= f) w =
      (.error (errorMessage (env.status line iter) env.file l),
        ⟨w.trace ++ [.query d sizes], w.clock + env.latency line iter⟩) := by
  simp [OCL_SAFE_CALL, run_bind, deviceQuery, liftExcept, reportError_failure h]

theorem checkedCall_bind_ok {β : Type} {env : Env} {line : Nat} {iter : List Nat}
    (h : env.status line iter = CL_SUCCESS) (l : Nat) (api : Api) (sizes : List Nat)
    (f : Unit → Run β) (w : World) :
    (OCL_SAFE_CALL env l (apiCall env api sizes line iter) >>= f) w =
      f () ⟨w.trace ++ [.call api sizes], w.clock + env.latency line iter⟩ := by
  simp [OCL_SAFE_CALL, run_bind, apiCall, liftExcept, h, reportError_success]

theorem checkedCall_bind_error {β : Type} {env : Env} {line : Nat} {iter : List Nat}
    (h : env.status line iter ≠ CL_SUCCESS) (l : Nat) (api : Api) (sizes : List Nat)
    (f : Unit → Run β) (w : World) :
    (OCL_SAFE_CALL env l (apiCall env api sizes line iter) >>= f) w =
      (.error (errorMessage (env.status line iter) env.file l),
        ⟨w.trace ++ [.call api sizes], w.clock + env.latency line iter⟩) := by
  simp [OCL_SAFE_CALL, run_bind, apiCall, liftExcept, reportError_failure h]

theorem thrice_append (a b : List Device) : thrice (a ++ b) = thrice a ++ thrice b := by
  simp [thrice, List.flatMap_append]

theorem thrice_cons (d : Device) (l : List Device) : thrice (d :: l) = d :: d :: d :: thrice l := by
  simp [thrice, List.flatMap_cons]

theorem loopOutcome_ok {env : Env} {w w₁ : World} {expected : SelectionState}
    {visited : List Device} {entered : Nat}
    (hq : queried w₁.trace = queried w.trace ++ thrice visited)
    (hc : (calls w₁.trace).count .clGetDeviceIDs
      = (calls w.trace).count .clGetDeviceIDs + 2 * entered) :
    LoopOutcome env w expected visited entered (.ok expected, w₁) :=
  ⟨thrice visited, hq, Or.inl ⟨rfl, rfl, hc⟩⟩

theorem loopOutcome_error {env : Env} {w w₁ : World} {expected : SelectionState}
    {visited : List Device} {entered : Nat} {msg : String} (Q rest : List Device)
    (hf : ApiFailure env 89 msg) (hq : queried w₁.trace = queried w.trace ++ Q)
    (hrest : Q ++ rest = thrice visited) :
    LoopOutcome env w expected visited entered (.error msg, w₁) :=
  ⟨Q, hq, Or.inr ⟨msg, hf, rfl, rest, hrest⟩⟩

/-- An outcome seen from an earlier world. -/
theorem loopOutcome_shift {env : Env} {w w₁ : World} {expected : SelectionState}
    {visited₁ visited : List Device} {entered₁ entered : Nat}
    {r : Except String SelectionState × World} (Q : List Device) (c : Nat)
    (h : LoopOutcome env w₁ expected visited₁ entered₁ r)
    (hq : queried w₁.trace = queried w.trace ++ Q)
    (hc : (calls w₁.trace).count .clGetDeviceIDs = (calls w.trace).count .clGetDeviceIDs + c)
    (hv : thrice visited = Q ++ thrice visited₁) (hk : 2 * entered = c + 2 * entered₁) :
    LoopOutcome env w expected visited entered r := by
  obtain ⟨L, h1, h2⟩ := h
  refine ⟨Q ++ L, by rw [h1, hq, List.append_assoc], ?_⟩
  rcases h2 with ⟨hok, hL, hcount⟩ | ⟨msg, hf, herr, rest, hrest⟩
  · exact Or.inl ⟨hok, by rw [hL, hv], by rw [hcount, hc]; omega⟩
  · exact Or.inr ⟨msg, hf, herr, rest, by rw [List.append_assoc, hrest, hv]⟩

theorem scan_cons_fst (d : Device) (rest : List Device) :
    (scan (d :: rest)).map Prod.fst
      = d :: (if isGPU d then [] else (scan rest).map Prod.fst) := by
  cases hg : isGPU d <;> simp [scan, hg]

theorem deviceLoop_visits (env : Env) (platformIndex devicesCount : Nat) :
    ∀ (ds : List Device) (deviceIndex : Nat) (s : SelectionState) (w : World),
      LoopOutcome env w (s.extend (scan ds)) ((scan ds).map Prod.fst) 0
        (deviceLoop env platformIndex devicesCount ds deviceIndex s w) := by
  intro ds
  induction ds with
  | nil =>
    intro i s w
    exact loopOutcome_ok (by simp [scan, thrice]) (by simp)
  | cons d rest ih =>
    intro i s w
    unfold deviceLoop
    simp only [cout]
    rw [emit_bind]
    by_cases h66 : env.status 66 [platformIndex, i] = CL_SUCCESS
    · rw [checkedQuery_bind_ok h66]
      by_cases h68 : env.status 68 [platformIndex, i] = CL_SUCCESS
      · rw [checkedQuery_bind_ok h68, coutCString_bind]
        by_cases h72 : env.status 72 [platformIndex, i] = CL_SUCCESS
        · rw [checkedQuery_bind_ok h72]
          cases hg : isGPU d with
          | true =>
            simp only [if_true]
            have hscan : scan (d :: rest) = [(d, 1)] := by simp [scan, hg]
            rw [hscan]
            refine loopOutcome_ok ?_ ?_
            · by_cases hn : d.nameSize = 0 <;>
                simp [hn, queried, Event.device?, List.filterMap_append, thrice]
            · by_cases hn : d.nameSize = 0 <;>
                simp [hn, calls, Event.api?, List.filterMap_append, List.count_append]
          | false =>
            simp only [Bool.false_eq_true, if_false]
            have hscan : scan (d :: rest) = (d, 0) :: scan rest := by simp [scan, hg]
            rw [hscan, extend_cons]
            refine loopOutcome_shift [d, d, d] 0 (ih (i + 1) (s.assign d 0) _) ?_ ?_ ?_ rfl
            · by_cases hn : d.nameSize = 0 <;>
              simp [hn, queried, Event.device?, List.filterMap_append]
            · by_cases hn : d.nameSize = 0 <;>
                simp [hn, calls, Event.api?, List.filterMap_append, List.count_append]
            · simp [thrice_cons]
        · rw [checkedQuery_bind_error h72]
          refine loopOutcome_error [d, d, d]
            (thrice (if isGPU d then [] else (scan rest).map Prod.fst))
            ⟨72, 72, _, by norm_num, h72, rfl⟩ ?_ ?_
          · by_cases hn : d.nameSize = 0 <;>
              simp [hn, queried, Event.device?, List.filterMap_append]
          · rw [scan_cons_fst, thrice_cons]; rfl
      · rw [checkedQuery_bind_error h68]
        refine loopOutcome_error [d, d]
          (d :: thrice (if isGPU d then [] else (scan rest).map Prod.fst))
          ⟨68, 68, _, by norm_num, h68, rfl⟩ ?_ ?_
        · by_cases hn : d.nameSize = 0 <;>
              simp [hn, queried, Event.device?, List.filterMap_append]
        · rw [scan_cons_fst, thrice_cons]; rfl
    · rw [checkedQuery_bind_error h66]
      refine loopOutcome_error [d]
        (d :: d :: thrice (if isGPU d then [] else (scan rest).map Prod.fst))
        ⟨66, 66, _, by norm_num, h66, rfl⟩ ?_ ?_
      · by_cases hn : d.nameSize = 0 <;>
              simp [hn, queried, Event.device?, List.filterMap_append]
      · rw [scan_cons_fst, thrice_cons]; rfl

theorem scan_append_fst (a b : List Device) :
    ∃ X, (scan (a ++ b)).map Prod.fst = (scan a).map Prod.fst ++ X := by
  rw [scan_append]
  cases a.any isGPU
  · exact ⟨(scan b).map Prod.fst, by simp⟩
  · exact ⟨[], by simp⟩

theorem platformLoop_visits (env : Env) (platformsCount : Nat) :
    ∀ (ps : List (List Device)) (platformIndex : Nat) (s : SelectionState) (w : World),
      s.gpu_use ≠ 1 →
      LoopOutcome env w (s.extend (scan ps.flatten)) ((scan ps.flatten).map Prod.fst)
        (platformsEntered ps) (platformLoop env platformsCount ps platformIndex s w) := by
  intro ps
  induction ps with
  | nil =>
    intro i s w _
    exact loopOutcome_ok (by simp [scan, thrice]) (by simp [platformsEntered])
  | cons ds rest ih =>
    intro i s w hs
    unfold platformLoop
    simp only [cout]
    rw [emit_bind]
    by_cases h55 : env.status 55 [i] = CL_SUCCESS
    · rw [checkedCall_bind_ok h55]
      by_cases h58 : env.status 58 [i] = CL_SUCCESS
      · rw [checkedCall_bind_ok h58]
        have hdev := deviceLoop_visits env i ds.length ds 0 s
          ⟨w.trace ++ [Event.out ("Platform #" ++ (i + 1).repr ++ "/" ++ platformsCount.repr)]
              ++ [Event.call Api.clGetDeviceIDs [0]]
              ++ [Event.call Api.clGetDeviceIDs [ds.length]],
            w.clock + env.latency 55 [i] + env.latency 58 [i]⟩
        obtain ⟨L, hq, hcase⟩ := hdev
        rcases hr : deviceLoop env i ds.length ds 0 s
          ⟨w.trace ++ [Event.out ("Platform #" ++ (i + 1).repr ++ "/" ++ platformsCount.repr)]
              ++ [Event.call Api.clGetDeviceIDs [0]]
              ++ [Event.call Api.clGetDeviceIDs [ds.length]],
            w.clock + env.latency 55 [i] + env.latency 58 [i]⟩ with ⟨r₁, w₁⟩
        rw [hr] at hq hcase
        simp only [queried, calls, Event.device?, Event.api?, List.filterMap_append,
          List.filterMap_cons, List.filterMap_nil, List.append_nil, List.count_append,
          List.count_cons, List.count_nil] at hq hcase
        rcases hcase with ⟨hok, hL, hcount⟩ | ⟨msg, hf, herr, tail, htail⟩
        · subst hok
          rw [run_bind_ok hr]
          have hflag := extend_scan_gpu_use_eq_one hs ds
          cases hany : ds.any isGPU with
          | true =>
            rw [if_pos (hflag.mpr hany)]
            have hscan : scan (ds :: rest).flatten = scan ds := by
              simp [scan_append, hany]
            rw [hscan]
            refine loopOutcome_ok ?_ ?_
            · simp only [queried]; rw [hq, hL]
            · simp only [calls]; rw [hcount]
              simp [platformsEntered, hany]
          | false =>
            have hne : (s.extend (scan ds)).gpu_use ≠ 1 := by
              intro h; rw [hflag.mp h] at hany; exact absurd hany (by simp)
            rw [if_neg hne]
            have hscan : scan (ds :: rest).flatten = scan ds ++ scan rest.flatten := by
              simp [scan_append, hany]
            rw [hscan, extend_append]
            refine loopOutcome_shift (thrice ((scan ds).map Prod.fst)) 2
              (ih (i + 1) (s.extend (scan ds)) w₁ hne) ?_ ?_ ?_ ?_
            · simp only [queried]; rw [hq, hL]
            · simp only [calls]; rw [hcount]
              simp
            · rw [List.map_append, thrice_append]
            · simp [platformsEntered, hany]; omega
        · subst herr
          rw [run_bind_error hr]
          obtain ⟨X, hX⟩ := scan_append_fst ds rest.flatten
          refine loopOutcome_error L (tail ++ thrice X) hf ?_ ?_
          · simp only [queried]; rw [hq]
          · rw [List.flatten_cons, hX, thrice_append, ← List.append_assoc, htail]
      · rw [checkedCall_bind_error h58]
        exact loopOutcome_error [] (thrice ((scan (ds :: rest).flatten).map Prod.fst))
          ⟨58, 58, _, by norm_num, h58, rfl⟩
          (by simp [queried, Event.device?, List.filterMap_append]) (by simp)
    · rw [checkedCall_bind_error h55]
      exact loopOutcome_error [] (thrice ((scan (ds :: rest).flatten).map Prod.fst))
        ⟨55, 55, _, by norm_num, h55, rfl⟩
        (by simp [queried, Event.device?, List.filterMap_append]) (by simp)

theorem platformsEntered_eq (ps : List (List Device)) :
    platformsEntered ps =
      (ps.takeWhile (fun p => !p.any isGPU)).length
        + (if ps.any (fun p => p.any isGPU) then 1 else 0) := by
  induction ps with
  | nil => simp [platformsEntered]
  | cons p rest ih =>
    cases hany : p.any isGPU with
    | true => simp [platformsEntered, hany, List.takeWhile_cons]
    | false =>
      simp only [platformsEntered, hany, Bool.false_eq_true, if_false, List.takeWhile_cons,
        Bool.not_false, if_true, List.length_cons, List.any_cons, Bool.false_or, ih]
      omega

/-- C10: the flag `gpu_use` is -1, 0 or 1.  When the calls of the selection succeed the
two loops (lines 50-85) run to their end.  Whenever they do: `clGetDeviceInfo` has been
called on exactly the devices of the enumeration up to and including the first GPU-class
device (all of it when there is none), three times each and in that order, so no device
after the first GPU-class one is visited, in its platform or a later one; `clGetDeviceIDs`
has been called twice for each platform up to and including the first that holds a
GPU-class device and for no later one; the ghost history of the final state lists an
assignment for each of the devices visited, with flag 1 for a GPU-class device and 0
otherwise, and an assignment with flag 1 is the last one, so the chosen GPU is never
overwritten; the final device and flag are those of the last assignment; and the final
flag is 1 iff a GPU-class device exists, 0 iff devices exist and none is GPU-class, -1
iff there is no device.  In every run, also one that throws, the devices queried are an
initial part of that same list. -/
theorem selection_flag_invariant (env : Env) (w : World) :
    (SucceedBefore env 89 → ∃ s,
      (platformLoop env env.platforms.length env.platforms 0 SelectionState.initial w).1
        = .ok s) ∧
    (∀ s, (platformLoop env env.platforms.length env.platforms 0 SelectionState.initial w).1
        = .ok s →
      queried
          (platformLoop env env.platforms.length env.platforms 0 SelectionState.initial w).2.trace
        = queried w.trace ++
          (env.platforms.flatten.takeWhile (fun d => !isGPU d)
            ++ (env.platforms.flatten.find? isGPU).toList).flatMap (fun d => [d, d, d]) ∧
      (calls
          (platformLoop env env.platforms.length env.platforms 0 SelectionState.initial
            w).2.trace).count .clGetDeviceIDs
        = (calls w.trace).count .clGetDeviceIDs
          + 2 * ((env.platforms.takeWhile (fun p => !p.any isGPU)).length
              + (if env.platforms.any (fun p => p.any isGPU) then 1 else 0)) ∧
      s.history.map Prod.fst =
        env.platforms.flatten.takeWhile (fun d => !isGPU d)
          ++ (env.platforms.flatten.find? isGPU).toList ∧
      (∀ p ∈ s.history, p.2 = if isGPU p.1 then 1 else 0) ∧
      (∀ pre p post, s.history = pre ++ p :: post → p.2 = 1 → post = []) ∧
      s.deviceId = s.history.getLast?.map Prod.fst ∧
      s.gpu_use = (s.history.getLast?.map Prod.snd).getD (-1) ∧
      (s.gpu_use = -1 ∨ s.gpu_use = 0 ∨ s.gpu_use = 1) ∧
      (s.gpu_use = 1 ↔ ∃ d ∈ env.platforms.flatten, isGPU d = true) ∧
      (s.gpu_use = 0 ↔
        env.platforms.flatten ≠ [] ∧ ∀ d ∈ env.platforms.flatten, isGPU d = false) ∧
      (s.gpu_use = -1 ↔ env.platforms.flatten = [])) ∧
    (∃ L rest,
      queried
          (platformLoop env env.platforms.length env.platforms 0 SelectionState.initial w).2.trace
        = queried w.trace ++ L ∧
      L ++ rest =
        (env.platforms.flatten.takeWhile (fun d => !isGPU d)
          ++ (env.platforms.flatten.find? isGPU).toList).flatMap (fun d => [d, d, d])) := by
  obtain ⟨L, hq, hcase⟩ := platformLoop_visits env env.platforms.length env.platforms 0
    SelectionState.initial w (by simp [SelectionState.initial])
  rw [scan_map_fst, platformsEntered_eq] at hcase
  refine ⟨?_, ?_, ?_⟩
  · intro hs
    rcases hcase with ⟨hok, _, _⟩ | ⟨msg, hf, _, _⟩
    · exact ⟨_, hok⟩
    · exact absurd hf (not_apiFailure hs msg)
  · intro s hs
    rcases hcase with ⟨hok, hL, hcount⟩ | ⟨msg, _, herr, _⟩
    · rw [hok] at hs
      simp only [Except.ok.injEq] at hs
      rw [← hs]
      obtain ⟨a1, a2, a3, a4, a5, a6⟩ := scan_state_facts env.platforms.flatten
      obtain ⟨f1, f0, fn⟩ := scan_flags env.platforms.flatten
      exact ⟨by rw [hq, hL]; rfl, hcount, a1, a2, a3, a4, a5, a6, f1, f0, fn⟩
    · rw [herr] at hs; simp at hs
  · rcases hcase with ⟨_, hL, _⟩ | ⟨_, _, _, rest, hrest⟩
    · exact ⟨L, [], hq, by rw [List.append_nil, hL]; rfl⟩
    · exact ⟨L, rest, hq, hrest⟩

/-- Witness of C10: a CPU on the first platform, a GPU and a CPU on the second; the loops
end with `GPU0` selected after querying `CPU0` and `GPU0` only. -/
theorem selection_flag_invariant_witness :
    SucceedBefore (quietEnv [[CPU0], [GPU0, CPU1]]) 89 ∧
    (∃ s, (platformLoop (quietEnv [[CPU0], [GPU0, CPU1]])
        (quietEnv [[CPU0], [GPU0, CPU1]]).platforms.length
        (quietEnv [[CPU0], [GPU0, CPU1]]).platforms 0 SelectionState.initial World.start).1
      = .ok s) ∧
    (platformLoop (quietEnv [[CPU0], [GPU0, CPU1]])
        (quietEnv [[CPU0], [GPU0, CPU1]]).platforms.length
        (quietEnv [[CPU0], [GPU0, CPU1]]).platforms 0 SelectionState.initial World.start).1
      = .ok ⟨some GPU0, 1, [(CPU0, 0), (GPU0, 1)]⟩ ∧
    queried (platformLoop (quietEnv [[CPU0], [GPU0, CPU1]])
        (quietEnv [[CPU0], [GPU0, CPU1]]).platforms.length
        (quietEnv [[CPU0], [GPU0, CPU1]]).platforms 0 SelectionState.initial
        World.start).2.trace
      = [CPU0, CPU0, CPU0, GPU0, GPU0, GPU0] :=
  ⟨fun _ _ _ => rfl,
    (selection_flag_invariant (quietEnv [[CPU0], [GPU0, CPU1]]) World.start).1
      (fun _ _ _ => rfl),
    by rfl,
    (((selection_flag_invariant (quietEnv [[CPU0], [GPU0, CPU1]]) World.start).2.1
      ⟨some GPU0, 1, [(CPU0, 0), (GPU0, 1)]⟩ (by rfl)).1).trans (by rfl)⟩

/-! ## `reportError`, the work size and the validation loop -/

/-- C6: `reportError` throws exactly when the status code is not `CL_SUCCESS` (which is
zero) and does nothing otherwise; the message thrown is "OpenCL error code ", the code
in decimal, " encountered at ", the file name, ":" and the line in decimal. -/
theorem reportError_raises_iff_failure (err : Int) (filename : String) (line : Int) :
    ((∃ msg, reportError err filename line = .error msg) ↔ err ≠ CL_SUCCESS) ∧
    (reportError err filename line = .ok () ↔ err = CL_SUCCESS) ∧
    CL_SUCCESS = 0 ∧
    reportError err filename line =
      (if err = CL_SUCCESS then .ok ()
       else .error ("OpenCL error code " ++ to_string err ++ " encountered at " ++ filename
          ++ ":" ++ to_string line)) ∧
    to_string err = (if err < 0 then "-" else "") ++ Nat.repr err.natAbs ∧
    to_string line = (if line < 0 then "-" else "") ++ Nat.repr line.natAbs ∧
    reportError (-11) "src/main.cpp" 142
      = .error "OpenCL error code -11 encountered at src/main.cpp:142" := by
  refine ⟨?_, ?_, rfl, ?_, ?_, ?_, by rfl⟩
  · by_cases h : err = CL_SUCCESS
    · simp [h, reportError_success]
    · simp [h, reportError_failure h]
  · by_cases h : err = CL_SUCCESS
    · simp [h, reportError_success]
    · simp [h, reportError_failure h]
  · by_cases h : err = CL_SUCCESS
    · simp [h, reportError_success]
    · simp only [h, if_false, reportError_failure h, errorMessage]
  · unfold to_string
    by_cases h : err < 0 <;> simp [h]
  · unfold to_string
    by_cases h : line < 0 <;> simp [h]

/-- C3, as stated, fails: for the element count 2 and the positive group size `2^64 - 1`
the sum `n + groupSize` wraps, and the computed size is 0, which is below `n`. -/
theorem global_work_size_wraps :
    (2 : Nat) < 2 ^ 32 ∧ 0 < 2 ^ 64 - 1 ∧ 2 ^ 64 - 1 < 2 ^ 64 ∧
    sizeAdd 2 (2 ^ 64 - 1) ≠ 2 + (2 ^ 64 - 1) ∧
    global_work_size 2 (2 ^ 64 - 1) = 0 ∧
    ¬ (2 ≤ global_work_size 2 (2 ^ 64 - 1)) ∧
    global_work_size 2 (2 ^ 64 - 1) ≠ idealWorkSize 2 (2 ^ 64 - 1) := by
  decide

/-- C3, amended: for every `n` below `2^32` and every group size between 1 and
`2^64 - 2^32` (128 among them) the size computed on line 170 is the smallest multiple of
the group size that is at least `n`: the group size divides it, it is at least `n`, it
exceeds `n` by less than the group size, no multiple in between exists, and none of the
three `size_t` operations wraps. -/
theorem global_work_size_is_padding (n workGroupSize : Nat) (hn : n < 2 ^ 32)
    (hpos : 0 < workGroupSize) (hmax : workGroupSize ≤ 2 ^ 64 - 2 ^ 32) :
    workGroupSize ∣ global_work_size n workGroupSize ∧
    n ≤ global_work_size n workGroupSize ∧
    global_work_size n workGroupSize < n + workGroupSize ∧
    (∀ m, workGroupSize ∣ m → n ≤ m → global_work_size n workGroupSize ≤ m) ∧
    sizeAdd n workGroupSize = n + workGroupSize ∧
    sizeSub (sizeAdd n workGroupSize) 1 = n + workGroupSize - 1 ∧
    global_work_size n workGroupSize = (n + workGroupSize - 1) / workGroupSize * workGroupSize ∧
    (128 : Nat) ≤ 2 ^ 64 - 2 ^ 32 := by
  have hsum : n + workGroupSize < 2 ^ 64 := by
    have h1 : (2 : Nat) ^ 32 ≤ 2 ^ 64 := by norm_num
    omega
  have heq := global_work_size_eq_ideal hpos hsum
  refine ⟨?_, ?_, ?_, ?_, ?_, sizeSub_sizeAdd_one hpos hsum, heq, by norm_num⟩
  · rw [heq]; exact idealWorkSize_dvd n workGroupSize
  · rw [heq]; exact idealWorkSize_ge hpos
  · rw [heq]; exact idealWorkSize_lt hpos
  · intro m hd hm
    rw [heq]; exact idealWorkSize_least hpos hd hm
  · exact Nat.mod_eq_of_lt hsum

/-- Witness of the amended C3: `n = 100000001` with the group size 128 of line 169. -/
theorem global_work_size_is_padding_witness :
    (100000001 : Nat) < 2 ^ 32 ∧ 0 < 128 ∧ 128 ≤ 2 ^ 64 - 2 ^ 32 ∧
    128 ∣ global_work_size 100000001 128 ∧ 100000001 ≤ global_work_size 100000001 128 ∧
    global_work_size 100000001 128 < 100000001 + 128 :=
  ⟨by norm_num, by norm_num, by norm_num,
    (global_work_size_is_padding 100000001 128 (by norm_num) (by norm_num) (by norm_num)).1,
    (global_work_size_is_padding 100000001 128 (by norm_num) (by norm_num) (by norm_num)).2.1,
    (global_work_size_is_padding 100000001 128 (by norm_num) (by norm_num)
      (by norm_num)).2.2.1⟩

/-- C4, as stated, fails: for 100000001 elements the padded size is not 100000064. -/
theorem padded_size_is_not_100000064 :
    global_work_size 100000001 128 ≠ 100000064 ∧
    ¬ (128 ∣ 100000064) ∧
    ¬ (global_work_size 100000000 128 = 100000000 ∧ 100000000 % 128 = 0 ∧
        global_work_size 100000001 128 = 100000064) := by
  decide

/-- C4, amended: with group size 128 the padded size of the 100000000 elements of line 99
(a multiple of 128) is 100000000, and the padded size of 100000001 elements is
100000128. -/
theorem padded_size_examples :
    n = 100000000 ∧ global_work_size n 128 = 100000000 ∧ 100000000 % 128 = 0 ∧
    global_work_size 100000001 128 = 100000128 := by
  decide

theorem differs_eq_get {F : Type} [FloatOps F] (as bs cs : Array F) (n : Nat)
    (has : as.size = n) (hbs : bs.size = n) (hcs : cs.size = n) (i : Nat) (hi : i < n) :
    differs as bs cs i =
      FloatOps.ne (cs.get ⟨i, by omega⟩)
        (FloatOps.add (as.get ⟨i, by omega⟩) (bs.get ⟨i, by omega⟩)) := by
  have h1 : i < as.size := by omega
  have h2 : i < bs.size := by omega
  have h3 : i < cs.size := by omega
  simp [differs, Array.getD, h1, h2, h3]

/-- C5: for vectors of equal length `n` the loop of lines 202-206 throws "CPU and GPU
results differ!" exactly when some index `k < n` has `cs[k] != as[k] + bs[k]`; it then
throws at the smallest such `k`, having compared the elements at `0..k` and no other; and
with no such index it ends normally after comparing all of `0..n-1`, so that after a
normal end no element differs. -/
theorem validate_throws_at_first_mismatch {F : Type} [FloatOps F] (as bs cs : Array F)
    (n : Nat) (has : as.size = n) (hbs : bs.size = n) (hcs : cs.size = n) :
    (∀ k (hk : k < n), differs as bs cs k =
      FloatOps.ne (cs.get ⟨k, by omega⟩)
        (FloatOps.add (as.get ⟨k, by omega⟩) (bs.get ⟨k, by omega⟩))) ∧
    ((validate as bs cs n).1 = .error "CPU and GPU results differ!" ↔
      ∃ k, k < n ∧ differs as bs cs k = true) ∧
    (∀ msg, (validate as bs cs n).1 = .error msg → msg = "CPU and GPU results differ!") ∧
    (∀ k, k < n → differs as bs cs k = true → (∀ j, j < k → differs as bs cs j = false) →
      validate as bs cs n = (.error "CPU and GPU results differ!", List.range (k + 1))) ∧
    ((∀ k, k < n → differs as bs cs k = false) →
      validate as bs cs n = (.ok (), List.range n)) ∧
    ((validate as bs cs n).1 = .ok () →
      ∀ i (hi : i < n), FloatOps.ne (cs.get ⟨i, by omega⟩)
        (FloatOps.add (as.get ⟨i, by omega⟩) (bs.get ⟨i, by omega⟩)) = false) := by
  refine ⟨fun k hk => differs_eq_get as bs cs n has hbs hcs k hk, ?_, ?_, ?_, ?_, ?_⟩
  · rcases validate_cases as bs cs n with ⟨hclean, h⟩ | ⟨k, hk, hd, _, h⟩
    · rw [h]
      constructor
      · intro he; simp at he
      · rintro ⟨k, hk, hd⟩
        rw [hclean k hk] at hd
        exact absurd hd (by simp)
    · rw [h]
      exact ⟨fun _ => ⟨k, hk, hd⟩, fun _ => rfl⟩
  · intro msg hm
    rcases validate_cases as bs cs n with ⟨_, h⟩ | ⟨k, _, _, _, h⟩
    · rw [h] at hm; simp at hm
    · rw [h] at hm
      simp only [Except.error.injEq] at hm
      exact hm.symm
  · intro k hk hd hmin
    rcases validate_cases as bs cs n with ⟨hclean, _⟩ | ⟨k', hk', hd', hmin', h⟩
    · rw [hclean k hk] at hd
      exact absurd hd (by simp)
    · have hkk : k' = k := by
        rcases Nat.lt_trichotomy k' k with hlt | heq | hgt
        · rw [hmin k' hlt] at hd'
          exact absurd hd' (by simp)
        · exact heq
        · rw [hmin' k hgt] at hd
          exact absurd hd (by simp)
      rw [← hkk]
      exact h
  · intro hclean
    rcases validate_cases as bs cs n with ⟨_, h⟩ | ⟨k, hk, hd, _, _⟩
    · exact h
    · rw [hclean k hk] at hd
      exact absurd hd (by simp)
  · intro hok i hi
    rw [← differs_eq_get as bs cs n has hbs hcs i hi]
    rcases validate_cases as bs cs n with ⟨hclean, _⟩ | ⟨k, _, _, _, h⟩
    · exact hclean i hi
    · rw [h] at hok
      simp at hok

/-- Witness of C5: three elements, the last two of which differ from the sums. -/
theorem validate_throws_at_first_mismatch_witness :
    (#[1, 2, 3] : Array Int).size = 3 ∧ (#[1, 1, 1] : Array Int).size = 3 ∧
    (#[2, 4, 5] : Array Int).size = 3 ∧
    ((validate (#[1, 2, 3] : Array Int) #[1, 1, 1] #[2, 4, 5] 3).1
        = .error "CPU and GPU results differ!" ↔
      ∃ k, k < 3 ∧ differs (#[1, 2, 3] : Array Int) #[1, 1, 1] #[2, 4, 5] k = true) :=
  ⟨rfl, rfl, rfl,
    (validate_throws_at_first_mismatch (#[1, 2, 3] : Array Int) #[1, 1, 1] #[2, 4, 5] 3
      rfl rfl rfl).2.1⟩

/-! ## The kernel source and the build log -/

theorem prepare_returns {F : Type} [FloatOps F] (n : Nat) {env : Env} (data : HostData F)
    (hinit : env.ocl_init = true) (hdev : env.platforms.flatten ≠ [])
    (hs : SucceedBefore env 124) (w : World) :
    ∃ r w₁ es, prepare n env data w = (.ok r, w₁) ∧ w₁.trace = w.trace ++ es ∧
      ∀ e ∈ es, PrepareEvent env.platforms.flatten e := by
  have h := prepare_obeys n env data (fun e (he : PrepareEvent env.platforms.flatten e) => he)
    (fun msg hm => (not_apiFailure hs msg hm : False))
    (fun hf => by rw [hinit] at hf; exact absurd hf (by simp))
    (fun hn => hdev hn)
  obtain ⟨r, w₁, es, h1, _, h2, h3⟩ := obeys_returns h (fun _ hf => hf) w
  exact ⟨r, w₁, es, h1, h2, h3⟩

theorem loadKernelSource_empty {env : Env} (h : env.kernel_sources.length = 0) (w : World) :
    loadKernelSource env w =
      (.error "Empty source file! May be you forgot to configure working directory properly?",
        w) := by
  simp [loadKernelSource, h, run_bind, raise]

theorem obeys_start {α : Type} {m : Run α} {P : Event → Prop} {ok : α → Prop}
    {err : String → Prop} (h : Obeys m P ok err) :
    ∀ e ∈ (m World.start).2.trace, P e := by
  obtain ⟨⟨es, h1, h2⟩, _, _⟩ := h World.start
  intro e he
  rw [h1] at he
  simpa [World.start] using h2 e (by simpa [World.start] using he)

theorem mem_calls {api : Api} {trace : List Event} (h : api ∈ calls trace) :
    ∃ e ∈ trace, e.api? = some api := by
  simpa [calls, List.mem_filterMap] using h

/-- No program is created or built when the kernel source is empty. -/
theorem mainFor_empty_source_calls {F : Type} [FloatOps F] (count : Nat) (env : Env)
    (data : HostData F) (h : env.kernel_sources.length = 0) :
    Api.clCreateProgramWithSource ∉ calls (mainFor count env data World.start).2.trace ∧
    Api.clBuildProgram ∉ calls (mainFor count env data World.start).2.trace := by
  have hob : Obeys (mainFor count env data)
      (fun e => e.api? ≠ some .clCreateProgramWithSource ∧ e.api? ≠ some .clBuildProgram)
      (fun r => r = 0) (fun _ => True) :=
    mainFor_obeys count env data
    (fun e he => by cases he <;> simp [Event.api?])
    (fun _ _ hsrc => absurd h hsrc) (fun hsrc => absurd h hsrc)
    (fun _ _ => trivial) (fun _ => trivial) (fun _ => trivial) (fun _ => trivial)
    (fun _ => trivial) (fun _ => trivial)
  constructor
  · intro hmem
    obtain ⟨e, he, hapi⟩ := mem_calls hmem
    exact (obeys_start hob e he).1 hapi
  · intro hmem
    obtain ⟨e, he, hapi⟩ := mem_calls hmem
    exact (obeys_start hob e he).2 hapi

/-- With the driver started, a device present and the calls of lines 36-121 succeeding,
an empty kernel source ends the run with "Empty source file! ...". -/
theorem mainFor_empty_source_outcome {F : Type} [FloatOps F] (count : Nat) (env : Env)
    (data : HostData F) (h : env.kernel_sources.length = 0) (hinit : env.ocl_init = true)
    (hdev : env.platforms.flatten ≠ []) (hs : SucceedBefore env 124) :
    (mainFor count env data World.start).1 =
      .error "Empty source file! May be you forgot to configure working directory properly?" := by
  obtain ⟨r, w₁, es, h1, _, _⟩ := prepare_returns count data hinit hdev hs World.start
  obtain ⟨as, bs, cs⟩ := r
  unfold mainFor
  rw [run_bind_ok h1]
  simp only []
  rw [run_bind_error (loadKernelSource_empty h w₁)]

/-- A non-empty kernel source never ends the run with "Empty source file! ...". -/
theorem mainFor_present_source_outcome {F : Type} [FloatOps F] (count : Nat) (env : Env)
    (data : HostData F) (h : env.kernel_sources.length ≠ 0) :
    (mainFor count env data World.start).1 ≠
      .error "Empty source file! May be you forgot to configure working directory properly?" := by
  have hob : Obeys (mainFor count env data) (fun _ => True) (fun r => r = 0)
      (fun msg => msg ≠
        "Empty source file! May be you forgot to configure working directory properly?") :=
    mainFor_obeys count env data (fun _ _ => trivial) (fun _ _ _ _ _ => trivial)
      (fun _ _ _ _ _ _ _ => trivial)
      (fun msg hf => apiFailure_ne hf (by decide))
      (fun _ => by decide) (fun _ => by decide) (fun h0 => absurd h0 h) (fun _ => by decide)
      (fun _ => by decide)
  intro he
  exact (hob World.start).2.2 _ he rfl

/-- C7: when lines 36-121 run through (driver started, a device present, their calls
succeeding) an empty kernel source makes the run throw "Empty source file! ..."; in every
environment with an empty source no `clCreateProgramWithSource` and no `clBuildProgram`
call is made; and in every environment with a non-empty source that message is not
thrown. -/
theorem empty_source_is_rejected {F : Type} [FloatOps F] (count : Nat) (env : Env)
    (data : HostData F) :
    (env.kernel_sources.length = 0 → env.ocl_init = true → env.platforms.flatten ≠ [] →
      SucceedBefore env 124 →
      (mainFor count env data World.start).1 = .error
        "Empty source file! May be you forgot to configure working directory properly?") ∧
    (env.kernel_sources.length = 0 →
      Api.clCreateProgramWithSource ∉ calls (mainFor count env data World.start).2.trace ∧
      Api.clBuildProgram ∉ calls (mainFor count env data World.start).2.trace) ∧
    (env.kernel_sources.length ≠ 0 →
      (mainFor count env data World.start).1 ≠ .error
        "Empty source file! May be you forgot to configure working directory properly?") ∧
    main env data = mainFor n env data :=
  ⟨mainFor_empty_source_outcome count env data, mainFor_empty_source_calls count env data,
    mainFor_present_source_outcome count env data, rfl⟩

/-- Witness of C7: one GPU, every call succeeding, and an empty `src/cl/aplusb.cl`. -/
theorem empty_source_is_rejected_witness :
    noSourceEnv.kernel_sources.length = 0 ∧ noSourceEnv.ocl_init = true ∧
    noSourceEnv.platforms.flatten ≠ [] ∧ SucceedBefore noSourceEnv 124 ∧
    (main noSourceEnv exactData World.start).1 = .error
      "Empty source file! May be you forgot to configure working directory properly?" ∧
    Api.clCreateProgramWithSource ∉ calls (main noSourceEnv exactData World.start).2.trace ∧
    Api.clBuildProgram ∉ calls (main noSourceEnv exactData World.start).2.trace :=
  ⟨rfl, rfl, by decide, fun _ _ _ => rfl,
    (empty_source_is_rejected n noSourceEnv exactData).1 rfl rfl (by decide)
      (fun _ _ _ => rfl),
    (empty_source_is_rejected n noSourceEnv exactData).2.1 rfl⟩

theorem checked_call_ok {env : Env} {line : Nat} {iter : List Nat}
    (h : env.status line iter = CL_SUCCESS) (l : Nat) (api : Api) (sizes : List Nat) (w : World) :
    OCL_SAFE_CALL env l (apiCall env api sizes line iter) w =
      (.ok (), ⟨w.trace ++ [.call api sizes], w.clock + env.latency line iter⟩) := by
  simp [OCL_SAFE_CALL, run_bind, apiCall, liftExcept, h, reportError_success]

/-- Duration of trial `i` of the kernel timing loop: its dispatch and its wait. -/
theorem kernelTrial_ok {env : Env} (h175 : ∀ i, env.status 175 [i] = CL_SUCCESS)
    (h177 : ∀ i, env.status 177 [i] = CL_SUCCESS) (g wgs i : Nat) (t : timer) (w : World) :
    kernelTrial env g wgs i t w =
      (.ok t, ⟨w.trace ++ [.call .clEnqueueNDRangeKernel [g, wgs], .call .clWaitForEvents [1]],
        w.clock + (env.latency 175 [i] + env.latency 177 [i])⟩) := by
  unfold kernelTrial
  rw [run_bind_ok (checked_call_ok (h175 i) 175 _ _ w),
    run_bind_ok (checked_call_ok (h177 i) 177 _ _ _)]
  simp [Nat.add_assoc]

theorem kernelLoop_ok {env : Env} (h175 : ∀ i, env.status 175 [i] = CL_SUCCESS)
    (h177 : ∀ i, env.status 177 [i] = CL_SUCCESS) (g wgs : Nat) (t : timer) :
    ∀ (k i : Nat) (w : World),
      forLoop (kernelTrial env g wgs) k i t w =
        (.ok t, ⟨w.trace ++ (List.replicate k
            [Event.call .clEnqueueNDRangeKernel [g, wgs], .call .clWaitForEvents [1]]).flatten,
          w.clock + ((List.range' i k).map
            (fun j => env.latency 175 [j] + env.latency 177 [j])).sum⟩) := by
  intro k
  induction k with
  | zero => intro i w; simp [forLoop]
  | succ k ih =>
    intro i w
    unfold forLoop
    rw [run_bind_ok (kernelTrial_ok h175 h177 g wgs i t w), ih]
    simp [List.replicate_succ, List.range'_succ, Nat.add_assoc]

theorem kernelTiming_ok {env : Env} (h175 : ∀ i, env.status 175 [i] = CL_SUCCESS)
    (h177 : ∀ i, env.status 177 [i] = CL_SUCCESS) (count : Nat) (w : World) :
    kernelTiming env count w =
      (.ok ⟨w.clock + ((List.range' 0 20).map
              (fun j => env.latency 175 [j] + env.latency 177 [j])).sum,
            [((List.range' 0 20).map
              (fun j => env.latency 175 [j] + env.latency 177 [j])).sum]⟩,
        ⟨w.trace ++ (List.replicate 20
            [Event.call .clEnqueueNDRangeKernel [global_work_size count 128, 128],
              .call .clWaitForEvents [1]]).flatten
          ++ [.stat "Kernel average time: " [((List.range' 0 20).map
                (fun j => env.latency 175 [j] + env.latency 177 [j])).sum],
              .stat "GFlops: " [((List.range' 0 20).map
                (fun j => env.latency 175 [j] + env.latency 177 [j])).sum],
              .stat "VRAM bandwidth: " [((List.range' 0 20).map
                (fun j => env.latency 175 [j] + env.latency 177 [j])).sum]],
          w.clock + ((List.range' 0 20).map
              (fun j => env.latency 175 [j] + env.latency 177 [j])).sum⟩) := by
  unfold kernelTiming
  have hc : timer.create w = (.ok ⟨w.clock, []⟩, w) := rfl
  rw [run_bind_ok hc, run_bind_ok (kernelLoop_ok h175 h177 _ _ _ 20 0 w)]
  simp [run_bind, timer.nextLap, emit]

theorem transferTrial_ok {F : Type} {env : Env} (data : HostData F)
    (h191 : ∀ i, env.status 191 [i] = CL_SUCCESS) (h194 : ∀ i, env.status 194 [i] = CL_SUCCESS)
    (count i : Nat) (t : timer) (cs : Array F) (w : World) (hstart : t.lapStart = w.clock) :
    transferTrial env data count i (t, cs) w =
      (.ok (⟨w.clock + (env.latency 191 [i] + env.latency 194 [i]),
              t.laps ++ [env.latency 191 [i] + env.latency 194 [i]]⟩,
            Array.ofFn (fun j : Fin count => data.readback i j.val)),
        ⟨w.trace ++ [.call .clEnqueueReadBuffer [sizeMul sizeofFloat count],
            .call .clWaitForEvents [1]],
          w.clock + (env.latency 191 [i] + env.latency 194 [i])⟩) := by
  unfold transferTrial
  rw [run_bind_ok (checked_call_ok (h191 i) 191 _ _ w),
    run_bind_ok (checked_call_ok (h194 i) 194 _ _ _)]
  simp [run_bind, timer.nextLap, hstart, Nat.add_assoc]

theorem transferLoop_ok {F : Type} {env : Env} (data : HostData F)
    (h191 : ∀ i, env.status 191 [i] = CL_SUCCESS) (h194 : ∀ i, env.status 194 [i] = CL_SUCCESS)
    (count : Nat) :
    ∀ (k i : Nat) (t : timer) (cs : Array F) (w : World), t.lapStart = w.clock →
      ∃ t' cs' w', forLoop (transferTrial env data count) k i (t, cs) w = (.ok (t', cs'), w') ∧
        t'.laps = t.laps ++ (List.range' i k).map
          (fun j => env.latency 191 [j] + env.latency 194 [j]) ∧
        calls w'.trace = calls w.trace ++ (List.replicate k
          [Api.clEnqueueReadBuffer, Api.clWaitForEvents]).flatten := by
  intro k
  induction k with
  | zero => intro i t cs w _; exact ⟨t, cs, w, rfl, by simp, by simp⟩
  | succ k ih =>
    intro i t cs w hstart
    unfold forLoop
    rw [run_bind_ok (transferTrial_ok data h191 h194 count i t cs w hstart)]
    obtain ⟨t', cs', w', h1, h2, h3⟩ := ih (i + 1)
      ⟨w.clock + (env.latency 191 [i] + env.latency 194 [i]),
        t.laps ++ [env.latency 191 [i] + env.latency 194 [i]]⟩
      (Array.ofFn (fun j : Fin count => data.readback i j.val))
      ⟨w.trace ++ [.call .clEnqueueReadBuffer [sizeMul sizeofFloat count],
          .call .clWaitForEvents [1]],
        w.clock + (env.latency 191 [i] + env.latency 194 [i])⟩ rfl
    refine ⟨t', cs', w', h1, ?_, ?_⟩
    · rw [h2]; simp [List.range'_succ]
    · rw [h3]; simp [calls, Event.api?, List.replicate_succ]

theorem transferTiming_ok {F : Type} {env : Env} (data : HostData F)
    (h191 : ∀ i, env.status 191 [i] = CL_SUCCESS) (h194 : ∀ i, env.status 194 [i] = CL_SUCCESS)
    (count : Nat) (cs : Array F) (w : World) :
    ∃ t cs' w', transferTiming env data count cs w = (.ok (t, cs'), w') ∧
      t.laps = (List.range 20).map (fun j => env.latency 191 [j] + env.latency 194 [j]) ∧
      (calls w'.trace).count .clEnqueueReadBuffer
        = (calls w.trace).count .clEnqueueReadBuffer + 20 := by
  unfold transferTiming
  have hc : timer.create w = (.ok ⟨w.clock, []⟩, w) := rfl
  obtain ⟨t', cs', w', h1, h2, h3⟩ :=
    transferLoop_ok data h191 h194 count 20 0 ⟨w.clock, []⟩ cs w rfl
  rw [run_bind_ok hc, run_bind_ok h1]
  refine ⟨t', cs', ⟨w'.trace ++ [Event.stat "Result data transfer time: " t'.laps]
    ++ [Event.stat "VRAM -> RAM bandwidth: " t'.laps], w'.clock⟩, rfl, ?_, ?_⟩
  · rw [h2, List.range_eq_range']; simp
  · simp only [calls, List.filterMap_append] at h3 ⊢
    rw [h3]
    simp [Event.api?, List.count_append]

theorem kernelLabels_not_transferLabels {label : String} (h : label ∈ kernelLabels) :
    label ∉ transferLabels := by
  simp only [kernelLabels, List.mem_cons, List.mem_singleton, List.not_mem_nil, or_false] at h
  rcases h with h | h | h <;> subst h <;> decide

/-- In every run of `main`, a statistics line of the kernel block is computed from one
lap and a statistics line of the transfer block from twenty. -/
theorem mainFor_stat_laps {F : Type} [FloatOps F] (count : Nat) (env : Env)
    (data : HostData F) (label : String) (laps : List Nat)
    (h : Event.stat label laps ∈ (mainFor count env data World.start).2.trace) :
    (label ∈ kernelLabels → laps.length = 1) ∧ (label ∈ transferLabels → laps.length = 20) := by
  have hob : Obeys (mainFor count env data)
      (fun e => ∀ label laps, e = .stat label laps →
        (label ∈ kernelLabels → laps.length = 1) ∧ (label ∈ transferLabels → laps.length = 20))
      (fun r => r = 0) (fun _ => True) :=
    mainFor_obeys count env data
      (fun e he => by cases he <;> intro label laps hl <;> exact Event.noConfusion hl)
      (fun _ _ _ e he => by cases he <;> intro label laps hl <;> exact Event.noConfusion hl)
      (fun _ _ _ _ _ e he => by
        cases he with
        | kernelStat lb lp hlb hlen =>
          intro label laps hl
          injection hl with h1 h2
          subst h1; subst h2
          exact ⟨fun _ => hlen, fun ht => absurd ht (kernelLabels_not_transferLabels hlb)⟩
        | transferStat lb lp hlb hlen =>
          intro label laps hl
          injection hl with h1 h2
          subst h1; subst h2
          exact ⟨fun hk => absurd hlb (kernelLabels_not_transferLabels hk), fun _ => hlen⟩
        | _ => intro label laps hl; exact Event.noConfusion hl)
      (fun _ _ => trivial) (fun _ => trivial) (fun _ => trivial) (fun _ => trivial)
      (fun _ => trivial) (fun _ => trivial)
  exact obeys_start hob _ h label laps rfl

/-- C8 does not hold of the code.  When the dispatches and waits succeed, the kernel
timing block (lines 168-184) does dispatch and wait 20 times, but `t.nextLap()` stands
after the loop (line 179): the timer ends with a single lap, which spans all 20 trials,
and the statistics are computed from that one sample.  The transfer timing block (lines
186-200), with `t.nextLap()` inside the loop (line 196), records 20 laps, one per trial.
In every run of `main`, a statistics line of the kernel block has one lap behind it. -/
theorem kernel_timer_records_one_lap {F : Type} [FloatOps F] (env : Env) (count : Nat)
    (data : HostData F) (cs : Array F) (w : World)
    (h175 : ∀ i, env.status 175 [i] = CL_SUCCESS) (h177 : ∀ i, env.status 177 [i] = CL_SUCCESS)
    (h191 : ∀ i, env.status 191 [i] = CL_SUCCESS) (h194 : ∀ i, env.status 194 [i] = CL_SUCCESS) :
    (∃ t w', kernelTiming env count w = (.ok t, w') ∧
      (calls w'.trace).count .clEnqueueNDRangeKernel
        = (calls w.trace).count .clEnqueueNDRangeKernel + 20 ∧
      (calls w'.trace).count .clWaitForEvents = (calls w.trace).count .clWaitForEvents + 20 ∧
      t.laps = [((List.range 20).map
        (fun i => env.latency 175 [i] + env.latency 177 [i])).sum] ∧
      t.laps = [w'.clock - w.clock] ∧
      t.laps.length = 1 ∧ t.laps.length ≠ 20 ∧
      Event.stat "Kernel average time: " t.laps ∈ w'.trace) ∧
    (∃ t cs' w', transferTiming env data count cs w = (.ok (t, cs'), w') ∧
      t.laps = (List.range 20).map (fun i => env.latency 191 [i] + env.latency 194 [i]) ∧
      t.laps.length = 20) ∧
    (∀ label laps, label ∈ kernelLabels →
      Event.stat label laps ∈ (mainFor count env data World.start).2.trace →
      laps.length = 1) := by
  refine ⟨⟨_, _, kernelTiming_ok h175 h177 count w, ?_, ?_, ?_, ?_, rfl, by simp, ?_⟩, ?_, ?_⟩
  · simp [calls, List.filterMap_append, Event.api?, List.count_append, List.replicate]
  · simp [calls, List.filterMap_append, Event.api?, List.count_append, List.replicate]
  · rw [List.range_eq_range']
  · simp
  · simp
  · obtain ⟨t, cs', w', h1, h2, _⟩ := transferTiming_ok data h191 h194 count cs w
    exact ⟨t, cs', w', h1, h2, by rw [h2]; simp⟩
  · intro label laps hl hmem
    exact (mainFor_stat_laps count env data label laps hmem).1 hl

/-- The kernel timing block on an environment in which every call succeeds and takes one
tick: one lap of 40 ticks, where the transfer block records 20 laps of 2 ticks. -/
theorem kernel_timer_records_one_lap_witness :
    (∀ i, (quietEnv [[GPU0]]).status 175 [i] = CL_SUCCESS) ∧
    (∀ i, (quietEnv [[GPU0]]).status 177 [i] = CL_SUCCESS) ∧
    (∀ i, (quietEnv [[GPU0]]).status 191 [i] = CL_SUCCESS) ∧
    (∀ i, (quietEnv [[GPU0]]).status 194 [i] = CL_SUCCESS) ∧
    (∃ t w', kernelTiming (quietEnv [[GPU0]]) n World.start = (.ok t, w') ∧ t.laps = [40]) ∧
    (∃ t cs' w', transferTiming (quietEnv [[GPU0]]) exactData n #[] World.start
        = (.ok (t, cs'), w') ∧ t.laps = List.replicate 20 2) := by
  obtain ⟨⟨t, w', h1, _, _, h2, _⟩, ⟨t', cs', w'', h3, h4, _⟩, _⟩ :=
    kernel_timer_records_one_lap (quietEnv [[GPU0]]) n exactData #[] World.start
      (fun _ => rfl) (fun _ => rfl) (fun _ => rfl) (fun _ => rfl)
  exact ⟨fun _ => rfl, fun _ => rfl, fun _ => rfl, fun _ => rfl,
    ⟨t, w', h1, by rw [h2]; rfl⟩, ⟨t', cs', w'', h3, by rw [h4]; rfl⟩⟩

end APlusB
